import Mathlib

/-!
# Verification of the Cursor chat exporter (`export-cursor.py`)

A shallow embedding of the record-reconstruction and incremental-rendering
pipeline of `export-cursor.py`, together with theorems settling the frozen
claims about its specification.

Modelling conventions:
* Store values (loosely-typed JSON records) are modelled by the inductive
  `JVal`.  A Python dict is a list of key/value pairs with distinct keys;
  `dict.get` becomes an association-list lookup.
* Python truthiness is `JVal.truthy`; `str(...)` of a value is `pyStr`.
* Fields that the source feeds to `json.loads` are modelled by `RawField`,
  which carries the parse outcome (the parser itself is the Python stdlib's,
  external to the program): `absent` (key missing or falsy value),
  `malformed` (truthy string that fails to parse), `parsed` (a string that
  parses to an object, or an object stored directly).  Payloads that parse to
  non-objects make the source raise and are outside the modelled domain.
* `datetime` formatting is OS/timezone dependent; it is modelled by a `Clock`
  record of formatting oracles passed to the functions that use it.
* Machine floats never matter to the claims: timestamps are integral
  epoch-milliseconds and `st_mtime * 1000` is modelled as an integer.
-/

set_option maxHeartbeats 1000000

/-- A JSON-ish Python value as stored in the key-value store. -/
inductive JVal where
  | jnull : JVal
  | jbool : Bool → JVal
  | jnum : Int → JVal
  | jstr : String → JVal
  | jarr : List JVal → JVal
  | jobj : List (String × JVal) → JVal

namespace JVal

/-- Python truthiness of a value (`bool(v)`). -/
def truthy : JVal → Bool
  | jnull => false
  | jbool b => b
  | jnum n => n != 0
  | jstr s => s != ""
  | jarr xs => !xs.isEmpty
  | jobj fs => !fs.isEmpty

mutual

/-- Python `str(v)` for the modelled values (`str` of a container uses the
`repr` of its elements, which quotes strings). -/
def pyStr : JVal → String
  | jnull => "None"
  | jbool true => "True"
  | jbool false => "False"
  | jnum n => toString n
  | jstr s => s
  | jarr xs => "\x5b" ++ pyReprSeq xs ++ "\x5d"
  | jobj fs => "\x7b" ++ pyReprFields fs ++ "\x7d"

/-- Python `repr(v)` (only the quoting of strings differs from `str`). -/
def pyRepr : JVal → String
  | jstr s => "\x27" ++ s ++ "\x27"
  | jnull => "None"
  | jbool true => "True"
  | jbool false => "False"
  | jnum n => toString n
  | jarr xs => "\x5b" ++ pyReprSeq xs ++ "\x5d"
  | jobj fs => "\x7b" ++ pyReprFields fs ++ "\x7d"

def pyReprSeq : List JVal → String
  | [] => ""
  | [v] => pyRepr v
  | v :: rest => pyRepr v ++ ", " ++ pyReprSeq rest

def pyReprFields : List (String × JVal) → String
  | [] => ""
  | [(k, v)] => "\x27" ++ k ++ "\x27: " ++ pyRepr v
  | (k, v) :: rest => "\x27" ++ k ++ "\x27: " ++ pyRepr v ++ ", " ++ pyReprFields rest

end

/-- The indentation emitted by `json.dumps(..., indent=2)` at depth `d`. -/
def indentOf (d : Nat) : String := String.mk (List.replicate (2 * d) ' ')

mutual

/-- `json.dumps(v, ensure_ascii=False, indent=2)` at nesting depth `d`
(string escaping is limited to quotes and backslashes, which is all that the
modelled values require). -/
def dumps (d : Nat) : JVal → String
  | jnull => "null"
  | jbool true => "true"
  | jbool false => "false"
  | jnum n => toString n
  | jstr s => "\"" ++ (s.replace "\\" "\\\\").replace "\"" "\\\"" ++ "\""
  | jarr [] => "\x5b\x5d"
  | jarr (x :: xs) =>
      "\x5b\n" ++ dumpsSeq (d + 1) (x :: xs) ++ "\n" ++ indentOf d ++ "\x5d"
  | jobj [] => "\x7b\x7d"
  | jobj (f :: fs) =>
      "\x7b\n" ++ dumpsFields (d + 1) (f :: fs) ++ "\n" ++ indentOf d ++ "\x7d"

def dumpsSeq (d : Nat) : List JVal → String
  | [] => ""
  | [v] => indentOf d ++ dumps d v
  | v :: rest => indentOf d ++ dumps d v ++ ",\n" ++ dumpsSeq d rest

def dumpsFields (d : Nat) : List (String × JVal) → String
  | [] => ""
  | [(k, v)] => indentOf d ++ "\"" ++ k ++ "\": " ++ dumps d v
  | (k, v) :: rest =>
      indentOf d ++ "\"" ++ k ++ "\": " ++ dumps d v ++ ",\n" ++ dumpsFields d rest

end

/-- Top-level `json.dumps(v, ensure_ascii=False, indent=2)`. -/
def jsonDumps (v : JVal) : String := dumps 0 v

end JVal

open JVal

/-- `fields.get(k)` on a modelled dict: the value at key `k`, if present. -/
def getJ (fs : List (String × JVal)) (k : String) : Option JVal :=
  (fs.find? (fun p => p.1 == k)).map (·.2)

/-- `fields.get(k, d)`: lookup with a default. -/
def getJD (fs : List (String × JVal)) (k : String) (d : JVal) : JVal :=
  (getJ fs k).getD d

/-- `fields.get(k, '')` read as a string (non-string values for these keys
make the source raise; they are outside the modelled domain). -/
def getStrD (fs : List (String × JVal)) (k : String) : String :=
  match getJ fs k with
  | some (jstr s) => s
  | _ => ""

/-- `fields.get(k, [])` read as a list (non-list values for these keys are
outside the modelled domain). -/
def getListD (fs : List (String × JVal)) (k : String) : List JVal :=
  match getJ fs k with
  | some (jarr xs) => xs
  | _ => []

/-- `fields.get(k)` read as an integer when present and numeric. -/
def getIntD (fs : List (String × JVal)) (k : String) (d : Int) : Int :=
  match getJ fs k with
  | some (jnum n) => n
  | _ => d

/-- The first truthy value of an `x or y or ... ` chain over optional fields
(`none` models an absent key, whose `dict.get` result `None` is falsy). -/
def firstTruthy (vs : List (Option JVal)) : Option JVal :=
  match vs with
  | [] => none
  | v :: rest =>
    match v with
    | some x => if truthy x then some x else firstTruthy rest
    | none => firstTruthy rest

/-- Python `'{:,}'.format (n)`: decimal digits grouped in threes by commas. -/
def commaFmt (n : Int) : String :=
  let ds := (toString n.natAbs).data
  let grouped := (groupRev ds.reverse).reverse
  (if n < 0 then "-" else "") ++ String.mk grouped
  where
    groupRev : List Char → List Char
      | [] => []
      | [a] => [a]
      | [a, b] => [a, b]
      | [a, b, c] => [a, b, c]
      | a :: b :: c :: rest => a :: b :: c :: ',' :: groupRev rest

/-- Python `str.title()` restricted to space-separated words (the only inputs
the source feeds it are single lowercase words such as `unknown`). -/
def pyTitle (s : String) : String :=
  String.intercalate " " ((s.splitOn " ").map capWord)
  where capWord (w : String) : String :=
    match w.data with
    | [] => ""
    | c :: rest => String.mk (c.toUpper :: rest.map Char.toLower)

/-- Python `s.strip()`: whitespace removed from both ends (computing on the
character list, unlike `String.trim`). -/
def pyStrip (s : String) : String :=
  String.mk (((s.data.dropWhile Char.isWhitespace).reverse.dropWhile
    Char.isWhitespace).reverse)

/-- `(xs.map f).join`, the shape of the source's per-element `append` loops. -/
def joinMap {α β : Type} (f : α → List β) (xs : List α) : List β :=
  (xs.map f).flatten

/-! ## Data model: threads, bubbles, tool invocations, context records -/

/-- A field the source feeds to `json.loads`, modelled by its parse outcome:
`absent` (key missing, or a falsy value such as `None`/`''`), `malformed`
(a truthy string that fails to parse), `parsed` (a truthy string parsing to
an object, or an object stored directly).  Payloads parsing to non-objects
make the source raise and are outside the modelled domain. -/
inductive RawField where
  | absent : RawField
  | malformed : RawField
  | parsed : List (String × JVal) → RawField

/-- The `toolFormerData` record of a bubble (a tool invocation). -/
structure ToolFormerData where
  name : Option String
  rawArgs : RawField
  params : RawField
  result : RawField

/-- One message record (`bubbleId:{cid}:{bid}` row), with each dict key the
source reads modelled as a field (`none` / `[]` = key absent). -/
structure Bubble where
  type : Option JVal
  role : Option JVal
  authorRole : Option JVal
  sender : Option JVal
  content : Option JVal
  text : Option JVal
  richText : Option JVal
  message : Option JVal
  thinking : Option JVal
  toolFormerData : Option ToolFormerData
  bubbleId : Option String
  tokenCount : Option JVal
  aiWebSearchResults : List JVal
  docsReferences : List JVal
  webReferences : List JVal
  contextPieces : List JVal
  gitDiffs : List JVal
  commits : List JVal
  pullRequests : List JVal
  lints : List JVal
  approximateLintErrors : List JVal
  multiFileLinterErrors : List JVal
  humanChanges : List JVal
  attachedFolders : List JVal
  attachedFoldersNew : List JVal
  recentlyViewedFiles : List JVal
  images : List JVal
  isAgentic : Option JVal

/-- A bubble with every key absent. -/
def Bubble.empty : Bubble where
  type := none
  role := none
  authorRole := none
  sender := none
  content := none
  text := none
  richText := none
  message := none
  thinking := none
  toolFormerData := none
  bubbleId := none
  tokenCount := none
  aiWebSearchResults := []
  docsReferences := []
  webReferences := []
  contextPieces := []
  gitDiffs := []
  commits := []
  pullRequests := []
  lints := []
  approximateLintErrors := []
  multiFileLinterErrors := []
  humanChanges := []
  attachedFolders := []
  attachedFoldersNew := []
  recentlyViewedFiles := []
  images := []
  isAgentic := none

/-- One thread-metadata record (`composerData:{cid}` value, or an
`allComposers` entry), with the dict keys the source reads as fields.
Timestamps are integral epoch-milliseconds. -/
structure ThreadData where
  name : Option JVal
  createdAt : Option Int
  lastUpdatedAt : Option Int
  context : Option JVal

/-- A `messageRequestContext:{cid}:{bid}` record.  `none` at the lookup site
models the `{}` returned for an absent or unparsable row (falsy); a present
record with all four arrays empty behaves identically to a dict whose other
keys the source never reads. -/
structure ContextData where
  files : List JVal
  todos : List JVal
  terminalFiles : List JVal
  cursorRules : List JVal

/-- The `datetime` formatting oracles (OS/timezone dependent, external to the
program): `nowStr` is `datetime.now()` formatted as `'%Y-%m-%d %H:%M:%S'`,
`fmtTs` formats an epoch-ms value the same way, and `fmtTsFile` formats one
as `'%Y-%m-%dT%H%M'` for filenames. -/
structure Clock where
  nowStr : String
  fmtTs : Int → String
  fmtTsFile : Int → String

/-! ## Content, thinking-text and role resolution -/

/-- `extract_message_content`: the first truthy value among the four
alternative content fields; a dict pretty-prints, anything else is
`str(...).strip()` (the empty default strips to `''`). -/
def extractMessageContent (b : Bubble) : String :=
  match firstTruthy [b.content, b.text, b.richText, b.message] with
  | some (jobj fs) => jsonDumps (jobj fs)
  | some v => pyStrip (pyStr v)
  | none => ""

/-- `extract_thinking_content`: `thinking['text'].strip()` when `thinking`
is a dict (the absent-key default `{}` included), else `''`. -/
def extractThinkingContent (b : Bubble) : String :=
  match b.thinking with
  | some (jobj fs) => pyStrip (getStrD fs "text")
  | _ => ""

/-- `get_message_role`: the `type` tag decides when it is an `int` equal to
1 or 2 (a Python `bool` is an `int`, so `True == 1` also matches); any other
tag falls through to the `role or authorRole or sender` chain, whose first
truthy value is matched case-insensitively when it is a string; otherwise
`unknown`. -/
def getMessageRole (b : Bubble) : String :=
  let tagRole : Option String :=
    match b.type with
    | some (jnum n) => if n = 1 then some "user" else if n = 2 then some "assistant" else none
    | some (jbool bv) => if bv then some "user" else none
    | _ => none
  match tagRole with
  | some r => r
  | none =>
    match firstTruthy [b.role, b.authorRole, b.sender] with
    | some (jstr s) =>
      let l := s.toLower
      if l = "user" ∨ l = "human" ∨ l = "client" then "user"
      else if l = "assistant" ∨ l = "ai" ∨ l = "agent" ∨ l = "bot" ∨ l = "model" then
        "assistant"
      else "unknown"
    | _ => "unknown"

/-! ## The action formatter (`extract_intermediate_actions`) -/

/-- The argument-parsing preamble: `rawArgs` when it parses (an object stored
directly included), else the `params` fallback (a string parsing to a dict),
else `{}`. -/
def parseToolArgs (tfd : ToolFormerData) : List (String × JVal) :=
  let args := match tfd.rawArgs with
    | RawField.parsed fs => fs
    | _ => []
  if args.isEmpty then
    match tfd.params with
    | RawField.parsed fs => fs
    | _ => []
  else args

/-- The result-parsing preamble: `json.loads(result)` when the field is a
truthy string parsing to an object, else `{}` (parse failures caught). -/
def parseToolResult (tfd : ToolFormerData) : List (String × JVal) :=
  match tfd.result with
  | RawField.parsed fs => fs
  | _ => []

/-- `format_code_block`: every line of `code` prefixed by `pre`
(no truncation; blank-stripping code yields no lines). -/
def formatCodeBlock (code : String) (pre : String) : List String :=
  if pyStrip code = "" then []
  else (code.splitOn "\n").map (fun l => pre ++ l)

/-- Python `x != 0` for the values an `exitCode` field can hold
(`False == 0` in Python). -/
def pyNeZero : JVal → Bool
  | jnum n => n != 0
  | jbool b => b
  | _ => true

/-- The tool-kind dispatch of `extract_intermediate_actions`: the lines
produced from `toolFormerData` (nothing when that field is absent or not a
dict). -/
def toolActions (b : Bubble) : List String :=
  match b.toolFormerData with
  | none => []
  | some tfd =>
    let args := parseToolArgs tfd
    let resultData := parseToolResult tfd
    let name := tfd.name.getD ""
    if name = "codebase_search" then
      let query := getJD args "query" (jstr "")
      let targetDirs := getListD args "target_directories"
      ["🔍 Searched: " ++ pyStr query]
      ++ (if !targetDirs.isEmpty then
            ["   → Scope: " ++ String.intercalate ", " (targetDirs.map pyStr)]
          else [])
      ++ (let codeResults := getListD resultData "codeResults"
          if !codeResults.isEmpty then
            ("   → Found " ++ toString codeResults.length ++ " result(s)") ::
            joinMap (fun cr =>
              match cr with
              | jobj crf =>
                match getJ crf "codeBlock" with
                | some (jobj cb) =>
                  let fp := getJD cb "relativeWorkspacePath" (jstr "")
                  let sl := getJD cb "startLine" (jstr "")
                  let el := getJD cb "endLine" (jstr "")
                  if truthy fp then
                    if truthy sl ∧ truthy el then
                      ["   📁 " ++ pyStr fp ++ ":" ++ pyStr sl ++ "-" ++ pyStr el]
                    else ["   📁 " ++ pyStr fp]
                  else []
                | _ => []
              | _ => []) codeResults
          else [])
    else if name = "read_file" then
      let fp := getJD args "target_file" (jstr "")
      let offs : Option Int := match getJ args "offset" with
        | some (jnum n) => some n
        | _ => none
      let lim : Option Int := match getJ args "limit" with
        | some (jnum n) => some n
        | _ => none
      if truthy fp then
        if offs.isSome ∨ lim.isSome then
          let o1 : Int := match offs with
            | some n => if n ≠ 0 then n else 1
            | none => 1
          ["📖 Read file: " ++ pyStr fp ++ " (lines " ++ toString o1 ++
            (match lim with
             | some l => if l ≠ 0 then "-" ++ toString (o1 + l - 1) else ""
             | none => "") ++ ")"]
        else ["📖 Read file: " ++ pyStr fp]
      else ["📖 Read file: (args unavailable)"]
    else if name = "write" then
      let fp := getJD args "file_path" (jstr "")
      let contents := getStrD args "contents"
      let lineCount := if contents ≠ "" then (contents.splitOn "\n").length else 0
      if truthy fp then
        ["✏️ Write file: " ++ pyStr fp]
        ++ (if lineCount > 0 then
              ["   → " ++ toString lineCount ++ " lines written", "   Contents:"]
              ++ formatCodeBlock contents "   | "
            else [])
      else ["✏️ Write file: (args unavailable)"]
    else if name = "search_replace" then
      let fp := getJD args "file_path" (jstr "")
      let oldStr := getStrD args "old_string"
      let newStr := getStrD args "new_string"
      let replaceAll := truthy (getJD args "replace_all" (jbool false))
      (if truthy fp then ["🔧 Edit file: " ++ pyStr fp]
       else ["🔧 Edit file: (args unavailable)"])
      ++ (if truthy fp ∧ (oldStr ≠ "" ∨ newStr ≠ "") then
            (if pyStrip oldStr ≠ "" then "   Old:" :: formatCodeBlock oldStr "   - " else [])
            ++ (if pyStrip newStr ≠ "" then "   New:" :: formatCodeBlock newStr "   + " else [])
            ++ (let oldCount : Int := if oldStr ≠ "" then ((oldStr.splitOn "\n").length : Int) else 0
                let newCount : Int := if newStr ≠ "" then ((newStr.splitOn "\n").length : Int) else 0
                let net := newCount - oldCount
                if net > 0 then ["   → Net change: +" ++ toString net ++ " line(s)"]
                else if net < 0 then ["   → Net change: " ++ toString net ++ " line(s)"]
                else [])
          else [])
      ++ (if replaceAll then ["   → Replace all occurrences"] else [])
    else if name = "run_terminal_cmd" then
      let command := getJD args "command" (jstr "")
      let isBackground := truthy (getJD args "is_background" (jbool false))
      (if truthy command then
         ["💻 Run: `" ++ pyStr command ++ "`" ++ (if isBackground then " (background)" else "")]
       else ["💻 Run: (args unavailable)"])
      ++ (match getJ resultData "output" with
          | some (jstr s) =>
            if s ≠ "" ∧ pyStrip s ≠ "" then "   Output:" :: formatCodeBlock (pyStrip s) "   | "
            else []
          | _ => [])
      ++ (match getJ resultData "exitCode" with
          | some jnull => []
          | some v => if pyNeZero v then ["   → Exit code: " ++ pyStr v] else []
          | none => [])
    else if name = "grep" then
      let pat := getJD args "pattern" (jstr "")
      let path := getJD args "path" (jstr "")
      let outputMode := getJD args "output_mode" (jstr "content")
      let glob := getJ args "glob"
      let caseInsensitive := truthy (getJD args "-i" (jbool false))
      let grepOpts := (if caseInsensitive then ["-i"] else [])
        ++ (match glob with
            | some g => if truthy g then ["--glob " ++ pyStr g] else []
            | none => [])
      let optsStr0 := String.intercalate " " grepOpts
      let optsStr := if optsStr0 ≠ "" then " (" ++ optsStr0 ++ ")" else ""
      (if truthy path then
         ["🔎 Grep" ++ optsStr ++ ": \x27" ++ pyStr pat ++ "\x27 in " ++ pyStr path]
       else ["🔎 Grep" ++ optsStr ++ ": \x27" ++ pyStr pat ++ "\x27"])
      ++ (match outputMode with
          | jstr m =>
            if m = "files_with_matches" then
              let files := getListD resultData "files"
              if !files.isEmpty then
                ["   → Found in " ++ toString files.length ++ " file(s)"]
              else []
            else if m = "count" then ["   → Output: match counts"]
            else []
          | _ => [])
    else if name = "list_dir" then
      let dirPath := getJD args "target_directory" (jstr "")
      let ignoreGlobs := getListD args "ignore_globs"
      ["📂 Listed directory: " ++ pyStr dirPath]
      ++ (if !ignoreGlobs.isEmpty then
            ["   → Ignoring: " ++ String.intercalate ", " (ignoreGlobs.map pyStr)]
          else [])
    else if name = "glob_file_search" then
      let pat := getJD args "glob_pattern" (jstr "")
      let targetDir := getJD args "target_directory" (jstr "")
      ["🔍 File search: " ++ pyStr pat]
      ++ (if truthy targetDir then ["   → In: " ++ pyStr targetDir] else [])
    else if name = "delete_file" then
      ["🗑️ Delete file: " ++ pyStr (getJD args "target_file" (jstr ""))]
    else if name = "edit_notebook" then
      let notebook := getJD args "target_notebook" (jstr "")
      let cellIdx := getJD args "cell_idx" (jstr "")
      let isNew := truthy (getJD args "is_new_cell" (jbool false))
      ["📓 Edit notebook: " ++ pyStr notebook ++
        (if isNew then " (new cell at " ++ pyStr cellIdx ++ ")"
         else " (cell " ++ pyStr cellIdx ++ ")")]
    else if name = "todo_write" then
      let todos := getListD args "todos"
      let merge := truthy (getJD args "merge" (jbool false))
      ("📝 TODO: " ++ (if merge then "Update" else "Create") ++ " "
          ++ toString todos.length ++ " item(s)")
      :: joinMap (fun td =>
          match td with
          | jobj tf =>
            ["   - [" ++ pyStr (getJD tf "status" (jstr "unknown")) ++ "] "
              ++ pyStr (getJD tf "content" (jstr ""))]
          | _ => []) todos
    else if name = "web_search" then
      let searchTerm := getJD args "search_term" (jstr "")
      ["🌐 Web search: " ++ pyStr searchTerm]
      ++ (if !resultData.isEmpty then
            let references := getListD resultData "references"
            if !references.isEmpty then
              ("   → " ++ toString references.length ++ " result(s)") ::
              joinMap (fun iv : Nat × JVal =>
                match iv.2 with
                | jobj rf =>
                  let title := getJD rf "title" (jstr "Untitled")
                  let chunk := getJD rf "chunk" (jstr "")
                  ["   " ++ toString (iv.1 + 1) ++ ". " ++ pyStr title]
                  ++ (if truthy chunk then ["      " ++ pyStr chunk] else [])
                | _ => []) references.enum
            else if truthy (getJD resultData "rejected" jnull) then
              ["   → Search was rejected/cancelled"]
            else []
          else [])
    else if name ≠ "" then
      ["🔧 " ++ name]
      ++ (if !args.isEmpty then
            let keyArgs := joinMap (fun k =>
              match getJ args k with
              | some v => if truthy v then [k ++ "=" ++ pyStr v] else []
              | none => []) ["file_path", "target_file", "path", "query", "pattern"]
            if !keyArgs.isEmpty then ["   → " ++ String.intercalate ", " keyArgs]
            else []
          else [])
    else []

/-- The bubble-level `aiWebSearchResults` lines (legacy/alternative storage). -/
def webSearchResultsBlock (b : Bubble) : List String :=
  let ws := b.aiWebSearchResults
  if !ws.isEmpty then
    ("🌐 Additional web search results: " ++ toString ws.length ++ " result(s)") ::
    joinMap (fun iv : Nat × JVal =>
      match iv.2 with
      | jobj rf =>
        let title := getJD rf "title" (jstr "Untitled")
        let url := getJD rf "url" (jstr "")
        let snippet := getJD rf "snippet" (jstr "")
        let chunk := getJD rf "chunk" (jstr "")
        if truthy title ∨ truthy url then
          ["   " ++ toString (iv.1 + 1) ++ ". " ++ pyStr title]
          ++ (if truthy url then ["      URL: " ++ pyStr url] else [])
          ++ (if truthy snippet then ["      Snippet: " ++ pyStr snippet] else [])
          ++ (if truthy chunk then ["      Content: " ++ pyStr chunk] else [])
        else []
      | _ => []) ws.enum
  else []

/-- The bubble-level `docsReferences` lines. -/
def docsReferencesBlock (b : Bubble) : List String :=
  let refs := b.docsReferences
  if !refs.isEmpty then
    ("📚 Docs: " ++ toString refs.length ++ " reference(s)") ::
    joinMap (fun r =>
      match r with
      | jobj rf =>
        let title := getJD rf "title" (jstr "")
        let url := getJD rf "url" (jstr "")
        (if truthy title then ["   - " ++ pyStr title] else [])
        ++ (if truthy url then ["     " ++ pyStr url] else [])
      | _ => []) refs
  else []

/-- The bubble-level `webReferences` lines. -/
def webReferencesBlock (b : Bubble) : List String :=
  joinMap (fun r =>
    match r with
    | jobj rf =>
      match getJ rf "url" with
      | some u => if truthy u then ["🔗 " ++ pyStr u] else []
      | none => []
    | _ => []) b.webReferences

/-- The bubble-level `contextPieces` summary line. -/
def contextPiecesBlock (b : Bubble) : List String :=
  if !b.contextPieces.isEmpty then
    ["📋 Context: " ++ toString b.contextPieces.length ++ " piece(s)"]
  else []

/-- `extract_intermediate_actions`: the tool-kind lines followed by the
bubble-level auxiliary blocks, in source order. -/
def extractIntermediateActions (b : Bubble) : List String :=
  toolActions b ++ webSearchResultsBlock b ++ docsReferencesBlock b
    ++ webReferencesBlock b ++ contextPiecesBlock b

/-! ## Per-bubble context information (renderer lines 739-922) -/

/-- Python `s[:n]` (slicing by code points). -/
def strTake (n : Nat) (s : String) : String := String.mk (s.data.take n)

/-- Python `s[-n:]` for `n ≤ len(s)` patterns (`f.stem[-8:]`). -/
def strTakeRight (n : Nat) (s : String) : String :=
  String.mk (s.data.drop (s.data.length - n))

/-- The `Files Referenced` block from a context record. -/
def filesCtxBlock (files : List JVal) : List String :=
  if files.isEmpty then [] else
    ("**Files Referenced (" ++ toString files.length ++ "):**") ::
    joinMap (fun f =>
      match f with
      | jobj fs =>
        match getJ fs "path" with
        | some p => ["- `" ++ pyStr p ++ "`"]
        | none => []
      | _ => []) files ++ [""]

/-- One TODO line.  A string entry models one the source's `json.loads`
attempt leaves as-is (a non-JSON or non-dict payload). -/
def todoCtxLine (td : JVal) : List String :=
  match td with
  | jobj tf =>
    ["- [" ++ pyStr (getJD tf "status" (jstr "unknown")) ++ "] "
      ++ pyStr (getJD tf "content" (jstr "Unknown"))]
  | jstr s => ["- " ++ s]
  | v => ["- " ++ pyStr v]

/-- The `[TODOs]` block from a context record. -/
def todosCtxBlock (todos : List JVal) : List String :=
  if todos.isEmpty then [] else
    ("**[TODOs]** (" ++ toString todos.length ++ ")") ::
    joinMap todoCtxLine todos ++ [""]

/-- The `Terminal Context` block from a context record. -/
def terminalCtxBlock (terminalFiles : List JVal) : List String :=
  if terminalFiles.isEmpty then [] else
    ("**Terminal Context (" ++ toString terminalFiles.length ++ "):**") ::
    terminalFiles.map (fun t => "- " ++ pyStr t) ++ [""]

/-- One cursor-rule line. -/
def ruleCtxLine (r : JVal) : List String :=
  match r with
  | jobj rf =>
    let rc := getJD rf "content" (getJD rf "text" (jstr ""))
    if truthy rc then ["- " ++ pyStr rc] else []
  | jstr s => ["- " ++ s]
  | _ => []

/-- The `Cursor Rules` block from a context record. -/
def rulesCtxBlock (rules : List JVal) : List String :=
  if rules.isEmpty then [] else
    ("**Cursor Rules (" ++ toString rules.length ++ "):**") ::
    joinMap ruleCtxLine rules ++ [""]

/-- The blocks drawn from the `messageRequestContext` record (all inside the
`if context_data:` guard; `none` models the falsy `{}`). -/
def ctxDataInfo (c : Option ContextData) : List String :=
  match c with
  | none => []
  | some cd =>
    filesCtxBlock cd.files ++ todosCtxBlock cd.todos
      ++ terminalCtxBlock cd.terminalFiles ++ rulesCtxBlock cd.cursorRules

/-- One git-diff entry with its complete fenced diff. -/
def gitDiffLines (d : JVal) : List String :=
  match d with
  | jobj df =>
    let fp := getJD df "path" (jstr "Unknown")
    let dc := getStrD df "diff"
    ("- " ++ pyStr fp) ::
    (if dc ≠ "" then
       ("  ```diff" :: (dc.splitOn "\n").map (fun l => "  " ++ l)) ++ ["  ```"]
     else [])
  | _ => []

/-- The `Git Diffs` block from the bubble. -/
def gitDiffsBlock (b : Bubble) : List String :=
  if b.gitDiffs.isEmpty then [] else
    ("**Git Diffs (" ++ toString b.gitDiffs.length ++ "):**") ::
    joinMap gitDiffLines b.gitDiffs ++ [""]

/-- The `Git Commits` block from the bubble. -/
def commitsBlock (b : Bubble) : List String :=
  if b.commits.isEmpty then [] else
    ("**Git Commits (" ++ toString b.commits.length ++ "):**") ::
    joinMap (fun c =>
      match c with
      | jobj cf =>
        ["- " ++ strTake 8 (getStrD cf "sha") ++ ": "
          ++ pyStr (getJD cf "message" (jstr "No message"))]
      | _ => []) b.commits ++ [""]

/-- The `Pull Requests` block from the bubble. -/
def pullRequestsBlock (b : Bubble) : List String :=
  if b.pullRequests.isEmpty then [] else
    ("**Pull Requests (" ++ toString b.pullRequests.length ++ "):**") ::
    joinMap (fun pr =>
      match pr with
      | jobj pf =>
        ["- PR #" ++ pyStr (getJD pf "number" (jstr "")) ++ ": "
          ++ pyStr (getJD pf "title" (jstr "No title"))]
      | _ => []) b.pullRequests ++ [""]

/-- One linting-issue line. -/
def lintLine (l : JVal) : List String :=
  match l with
  | jobj lf =>
    let severity := getJD lf "severity" (jstr "error")
    let message := getJD lf "message" (jstr "Unknown")
    let fp := getJD lf "file" (jstr "")
    let line := getJD lf "line" (jstr "")
    ["- [" ++ pyStr severity ++ "] " ++ pyStr message ++
      (if truthy fp then
         " (" ++ pyStr fp ++ (if truthy line then ":" ++ pyStr line else "") ++ ")"
       else "")]
  | _ => []

/-- The `Linting Issues` block (`lints + approximateLintErrors +
multiFileLinterErrors`). -/
def lintsBlock (b : Bubble) : List String :=
  let allLints := b.lints ++ b.approximateLintErrors ++ b.multiFileLinterErrors
  if allLints.isEmpty then [] else
    ("**Linting Issues (" ++ toString allLints.length ++ "):**") ::
    joinMap lintLine allLints ++ [""]

/-- The `Human Edits` block from the bubble. -/
def humanChangesBlock (b : Bubble) : List String :=
  if b.humanChanges.isEmpty then [] else
    ("**Human Edits (" ++ toString b.humanChanges.length ++ "):**") ::
    joinMap (fun ch =>
      match ch with
      | jobj cf =>
        ["- " ++ pyStr (getJD cf "type" (jstr "edit")) ++ ": "
          ++ pyStr (getJD cf "file" (jstr "Unknown"))]
      | _ => []) b.humanChanges ++ [""]

/-- One attached-folder line. -/
def folderLine (f : JVal) : List String :=
  match f with
  | jobj ff => ["- " ++ pyStr (getJD ff "path" (getJD ff "name" (jstr "Unknown")))]
  | jstr s => ["- " ++ s]
  | _ => []

/-- The `Attached Folders` block (`attachedFolders or attachedFoldersNew`). -/
def attachedFoldersBlock (b : Bubble) : List String :=
  let af := if b.attachedFolders.isEmpty then b.attachedFoldersNew else b.attachedFolders
  if af.isEmpty then [] else
    ("**Attached Folders (" ++ toString af.length ++ "):**") ::
    joinMap folderLine af ++ [""]

/-- One recently-viewed-file line. -/
def recentFileLine (f : JVal) : List String :=
  match f with
  | jobj ff =>
    let fp := getJD ff "path" (getJD ff "file" (jstr ""))
    if truthy fp then ["- " ++ pyStr fp] else []
  | jstr s => ["- " ++ s]
  | _ => []

/-- The `Recently Viewed Files` block from the bubble. -/
def recentlyViewedBlock (b : Bubble) : List String :=
  if b.recentlyViewedFiles.isEmpty then [] else
    ("**Recently Viewed Files (" ++ toString b.recentlyViewedFiles.length ++ "):**") ::
    joinMap recentFileLine b.recentlyViewedFiles ++ [""]

/-- One image line. -/
def imageLine (i : JVal) : List String :=
  match i with
  | jobj imf =>
    ["- " ++ pyStr (getJD imf "name" (getJD imf "filename" (jstr "Unnamed")))
      ++ " (" ++ pyStr (getJD imf "type" (getJD imf "mimeType" (jstr "unknown"))) ++ ")"]
  | jstr s => ["- " ++ s]
  | _ => []

/-- The `Images` block from the bubble. -/
def imagesBlock (b : Bubble) : List String :=
  if b.images.isEmpty then [] else
    ("**Images (" ++ toString b.images.length ++ "):**") ::
    joinMap imageLine b.images ++ [""]

/-- The `Mode: Agentic` block from the bubble. -/
def agenticBlock (b : Bubble) : List String :=
  if truthy (b.isAgentic.getD jnull) then ["**Mode:** Agentic", ""] else []

/-- The full `context_info` list of the renderer: the context-record blocks
followed by the bubble-level blocks, in source order. -/
def contextInfo (c : Option ContextData) (b : Bubble) : List String :=
  ctxDataInfo c ++ gitDiffsBlock b ++ commitsBlock b ++ pullRequestsBlock b
    ++ lintsBlock b ++ humanChangesBlock b ++ attachedFoldersBlock b
    ++ recentlyViewedBlock b ++ imagesBlock b ++ agenticBlock b

/-! ## The transcript renderer (`format_conversation_markdown`) -/

/-- `context_data` for a bubble: the `messageRequestContext` lookup when the
bubble id is truthy (the lookup capability stands in for the read-only store
connection). -/
def bubbleCtx (ctx : String → Option ContextData) (b : Bubble) : Option ContextData :=
  match b.bubbleId with
  | some bid => if bid ≠ "" then ctx bid else none
  | none => none

/-- The look-ahead's `next_context_info`: only the four context-record field
names are examined (unlike the full `context_info`). -/
def lookaheadCtxFields (c : Option ContextData) : List String :=
  match c with
  | none => []
  | some cd =>
    (if !cd.files.isEmpty then ["files"] else [])
    ++ (if !cd.todos.isEmpty then ["todos"] else [])
    ++ (if !cd.terminalFiles.isEmpty then ["terminalFiles"] else [])
    ++ (if !cd.cursorRules.isEmpty then ["cursorRules"] else [])

/-- The renderer's look-ahead over consecutive action-only bubbles: the
collected action lines and the remaining bubbles. -/
def collectActionRun (ctx : String → Option ContextData) :
    List Bubble → List String × List Bubble
  | [] => ([], [])
  | b :: rest =>
    let c := extractMessageContent b
    let acts := extractIntermediateActions b
    let th := extractThinkingContent b
    let lk := lookaheadCtxFields (bubbleCtx ctx b)
    if pyStrip c = "" ∧ acts ≠ [] ∧ lk = [] ∧ th = "" then
      let res := collectActionRun ctx rest
      (acts ++ res.1, res.2)
    else ([], b :: rest)

theorem collectActionRun_rest_le (ctx : String → Option ContextData) :
    ∀ bs : List Bubble, (collectActionRun ctx bs).2.length ≤ bs.length := by
  intro bs
  induction bs with
  | nil => simp [collectActionRun]
  | cons b rest ih =>
    rw [collectActionRun]
    split
    · simpa using Nat.le_succ_of_le ih
    · simp

/-- The renderer's message loop (source lines 719-1005) over explicit fuel:
processes bubbles in order threading the `last_role` state, skipping
semantically empty bubbles, merging consecutive action-only bubbles, and
emitting a separator on role transitions.  Every iteration consumes at least
one bubble, so the bubble count bounds the iterations; the structural fuel
parameter (always instantiated with the bubble count, see `renderLoop`)
keeps the definition kernel-computable. -/
def renderLoopF (ctx : String → Option ContextData) :
    Nat → List Bubble → Option String → List String
  | _, [], _ => []
  | 0, _ :: _, _ => []
  | fuel + 1, b :: rest, lastRole =>
    let content := extractMessageContent b
    let role := getMessageRole b
    let ctxInfo := contextInfo (bubbleCtx ctx b) b
    let thinking := extractThinkingContent b
    let actions := extractIntermediateActions b
    if pyStrip content = "" ∧ actions = [] ∧ ctxInfo = [] ∧ thinking = "" then
      renderLoopF ctx fuel rest lastRole
    else
      let sep := match lastRole with
        | some r => if r ≠ role then ["", "---", ""] else []
        | none => []
      if pyStrip content = "" ∧ actions ≠ [] ∧ ctxInfo = [] ∧ thinking = "" then
        sep ++ ["**[Actions]**"]
          ++ (actions ++ (collectActionRun ctx rest).1).map (fun a => "- " ++ a)
          ++ [""]
          ++ renderLoopF ctx fuel (collectActionRun ctx rest).2 (some "assistant")
      else
        let thinkLines := if thinking ≠ "" then ["**[Thinking]** " ++ thinking, ""] else []
        let contentLines :=
          if pyStrip content ≠ "" then
            if role = "user" then ["**[User]** " ++ content]
            else if role = "assistant" then ["**[Agent]** " ++ content]
            else ["**[" ++ pyTitle role ++ "]** " ++ content]
          else []
        let ctxLines :=
          if ctxInfo ≠ [] then (if pyStrip content ≠ "" then [""] else []) ++ ctxInfo
          else []
        let actLines :=
          if actions ≠ [] ∧ pyStrip content ≠ "" then
            ["", "**[Actions]**"] ++ actions.map (fun a => "- " ++ a)
          else []
        sep ++ thinkLines ++ contentLines ++ ctxLines ++ actLines ++ [""]
          ++ renderLoopF ctx fuel rest (some role)

/-- The renderer's message loop: `renderLoopF` at its exact fuel bound. -/
def renderLoop (ctx : String → Option ContextData)
    (bubbles : List Bubble) (lastRole : Option String) : List String :=
  renderLoopF ctx bubbles.length bubbles lastRole

/-- The per-bubble token totals (`tokenCount` must be a dict). -/
def tokenCounts (b : Bubble) : Int × Int :=
  match b.tokenCount with
  | some (jobj fs) => (getIntD fs "inputTokens" 0, getIntD fs "outputTokens" 0)
  | _ => (0, 0)

/-- The `**Context:**` header block from the thread's `context` field. -/
def contextHeaderBlock (td : ThreadData) : List String :=
  match td.context with
  | some ctxv =>
    if truthy ctxv then
      let files := match ctxv with
        | jobj fs => getListD fs "files"
        | _ => []
      if !files.isEmpty then
        ["**Context:** " ++ String.intercalate ", " (files.map (fun f =>
            match f with
            | jobj ff => pyStr (getJD ff "name" (jstr ""))
            | _ => "")) ++ "  ",
         ""]
      else []
    else []
  | none => []

/-- The header of the rendered document (source lines 668-716). -/
def headerLines (clock : Clock) (td : ThreadData) (cid : String)
    (bubbles : List Bubble) : List String :=
  let threadName := match td.name with
    | some v => pyStr v
    | none => "Untitled Conversation"
  let createdAt := td.createdAt.getD 0
  let updatedAt := td.lastUpdatedAt.getD createdAt
  let tin := (bubbles.map (fun b => (tokenCounts b).1)).sum
  let tout := (bubbles.map (fun b => (tokenCounts b).2)).sum
  ["# " ++ threadName,
   "",
   "**Exported:** " ++ clock.nowStr ++ "  ",
   "**Thread ID:** `" ++ cid ++ "`  ",
   "**Created:** " ++ clock.fmtTs createdAt ++ "  ",
   "**Last Updated:** " ++ clock.fmtTs updatedAt ++ "  ",
   "**Messages:** " ++ toString bubbles.length ++ "  "]
  ++ (if tin > 0 ∨ tout > 0 then
        ["**Tokens:** " ++ commaFmt (tin + tout) ++ " (" ++ commaFmt tin
          ++ " in / " ++ commaFmt tout ++ " out)  "]
      else [])
  ++ [""]
  ++ contextHeaderBlock td

/-- All lines of the rendered document. -/
def mdLinesOf (clock : Clock) (ctx : String → Option ContextData)
    (td : ThreadData) (cid : String) (bubbles : List Bubble) : List String :=
  headerLines clock td cid bubbles ++ renderLoop ctx bubbles none

/-- `format_conversation_markdown` (the `filename` parameter is accepted and
unused, as in the source). -/
def formatConversationMarkdown (clock : Clock) (ctx : String → Option ContextData)
    (td : ThreadData) (cid : String) (bubbles : List Bubble)
    (filename : String) : String :=
  String.intercalate "\n" (mdLinesOf clock ctx td cid bubbles)

/-! ## Filenames (`slugify_title`, `generate_filename`) and path stems -/

/-- Collapse every run of dashes to a single dash (`re.sub('-+', '-', s)`). -/
def collapseDashes (s : String) : String := String.mk (go s.data)
  where
    go : List Char → List Char
      | [] => []
      | [c] => [c]
      | c1 :: c2 :: rest =>
        if c1 = '-' ∧ c2 = '-' then go (c2 :: rest) else c1 :: go (c2 :: rest)

/-- Python `s.strip('-')`. -/
def stripDashes (s : String) : String :=
  String.mk (((s.data.dropWhile (· = '-')).reverse.dropWhile (· = '-')).reverse)

/-- The character replacements of `slugify_title`, applied in source order. -/
def slugReplacements (s : String) : String :=
  (((((((((s.replace "/" "-").replace "\\" "-").replace ":" "-").replace "*" "-").replace
    "?" "-").replace "\"" "").replace "<" "-").replace ">" "-").replace "|" "-").replace " " "-"

/-- `slugify_title`: first line truncated to `maxLength`, path-unsafe
characters replaced, dash runs collapsed, edge dashes stripped, with the
`untitled` fallback. -/
def slugifyTitle (title : String) (maxLength : Nat) : String :=
  let t0 := strTake maxLength (((title.splitOn "\n").headD ""))
  let t := stripDashes (collapseDashes (slugReplacements t0))
  if t = "" then "untitled" else t

/-- `generate_filename`: timestamp, title slug (thread name, else the first
message), and the 8-character id fingerprint. -/
def generateFilename (clock : Clock) (threadData : ThreadData) (cid : String)
    (firstMessage : String) : String :=
  let createdAt := threadData.createdAt.getD 0
  let timestampStr := clock.fmtTsFile createdAt
  let title := match threadData.name with
    | some v => if truthy v then pyStr v else firstMessage
    | none => firstMessage
  let titleSlug := slugifyTitle title 50
  let cidShort := strTake 8 cid
  timestampStr ++ "-" ++ titleSlug ++ "-" ++ cidShort ++ ".md"

/-- The index (from the head) of the last `'.'` of a name, if any. -/
def lastDotIdx : List Char → Option Nat
  | [] => none
  | c :: rest =>
    match lastDotIdx rest with
    | some i => some (i + 1)
    | none => if c = '.' then some 0 else none

/-- `pathlib.PurePath.stem`: the name without its last suffix (`name[:i]`
when the last dot sits strictly inside the name, else the name itself). -/
def pathStem (name : String) : String :=
  match lastDotIdx name.data with
  | some i => if 0 < i ∧ i + 1 < name.data.length then strTake i name else name
  | none => name

/-! ## The incremental export controller (`export_conversations`) -/

/-- `thread_data.get('lastUpdatedAt', thread_data.get('createdAt', 0))`. -/
def threadUpdatedMs (t : ThreadData) : Int :=
  t.lastUpdatedAt.getD (t.createdAt.getD 0)

/-- The up-to-date test of the controller: a truthy last-update timestamp,
a file indexed under the id's fingerprint, and that file's modification time
(ms) at least the timestamp.  `existing` maps a fingerprint (`f.stem[-8:]`)
to the file's `st_mtime * 1000`. -/
def isUpToDate (existing : String → Option Int) (cid : String) (t : ThreadData) : Bool :=
  if threadUpdatedMs t = 0 then false
  else
    match existing (strTake 8 cid) with
    | some mtimeMs => decide (threadUpdatedMs t ≤ mtimeMs)
    | none => false

/-- The needs-export partition: threads not classified up-to-date, in order. -/
def needsExport (existing : String → Option Int)
    (threads : List (String × ThreadData)) : List (String × ThreadData) :=
  threads.filter (fun p => !isUpToDate existing p.1 p.2)

/-- The cid set handed to the batch bubble aggregator
(`{cid for cid, _ in needs_export}`). -/
def aggregationCids (existing : String → Option Int)
    (threads : List (String × ThreadData)) : List String :=
  (needsExport existing threads).map (·.1)

/-- The first non-blank extracted message content of a thread's bubbles
(`''` when every content strips to empty). -/
def firstContent : List Bubble → String
  | [] => ""
  | b :: rest =>
    let c := extractMessageContent b
    if pyStrip c ≠ "" then c else firstContent rest

/-- The per-thread body of the export loop: `none` when the thread is skipped
(no bubbles, or no non-blank content), else the filename written. -/
def exportEntry (clock : Clock) (bubblesByCid : String → List Bubble)
    (cid : String) (t : ThreadData) : Option String :=
  if (bubblesByCid cid).isEmpty then none
  else if firstContent (bubblesByCid cid) = "" then none
  else some (generateFilename clock t cid (firstContent (bubblesByCid cid)))

/-! ## Thread reconstruction and merging (`get_composer_threads`,
`get_all_composer_threads`) -/

/-- `data.get('lastUpdatedAt', 0)`, the merge key. -/
def luOf (t : ThreadData) : Int := t.lastUpdatedAt.getD 0

/-- Python dict assignment on an insertion-ordered association list:
overwrite in place, append when absent. -/
def dictInsert (m : List (String × ThreadData)) (c : String) (d : ThreadData) :
    List (String × ThreadData) :=
  match m with
  | [] => [(c, d)]
  | (k, v) :: rest => if k = c then (c, d) :: rest else (k, v) :: dictInsert rest c d

/-- Dict lookup (first match; the maps built here have unique keys). -/
def dictLookup (m : List (String × ThreadData)) (c : String) : Option ThreadData :=
  match m with
  | [] => none
  | p :: rest => if p.1 = c then some p.2 else dictLookup rest c

/-- One store instance's thread-metadata rows: the `composerData:` rows of
`cursorDiskKV` (`none` = a NULL or unparsable value, skipped), followed by
the `allComposers` entries of `composer.composerData` that carry a
`composerId`. -/
structure StoreInstance where
  composerRows : List (String × Option ThreadData)
  allComposers : List (String × ThreadData)

/-- `get_composer_threads`: the parsed `cursorDiskKV` rows followed by the
`allComposers` entries, in scan order. -/
def getComposerThreads (inst : StoreInstance) : List (String × ThreadData) :=
  inst.composerRows.filterMap (fun p => p.2.map (fun d => (p.1, d))) ++ inst.allComposers

/-- The merge step for one workspace record: insert when the id is new,
else replace only on a strictly greater `lastUpdatedAt`. -/
def mergeWorkspaceRecord (acc : List (String × ThreadData))
    (p : String × ThreadData) : List (String × ThreadData) :=
  match dictLookup acc p.1 with
  | none => dictInsert acc p.1 p.2
  | some cur => if luOf p.2 > luOf cur then dictInsert acc p.1 p.2 else acc

/-- The deduplicated thread map: every global-instance record is assigned
unconditionally (last write wins), then workspace records merge by
`lastUpdatedAt`.  An unreadable instance contributes no records. -/
def allThreadsMap (globalRecs : List (String × ThreadData))
    (wsRecs : List (String × ThreadData)) : List (String × ThreadData) :=
  wsRecs.foldl mergeWorkspaceRecord
    (globalRecs.foldl (fun acc p => dictInsert acc p.1 p.2) [])

/-- Stable insertion for the descending presentation sort. -/
def insertDesc (p : String × ThreadData) :
    List (String × ThreadData) → List (String × ThreadData)
  | [] => [p]
  | q :: qs =>
    if q.2.createdAt.getD 0 ≥ p.2.createdAt.getD 0 then q :: insertDesc p qs
    else p :: q :: qs

/-- `sorted(all_threads.items(), key createdAt, reverse=True)` (stable). -/
def sortByCreatedAtDesc (m : List (String × ThreadData)) : List (String × ThreadData) :=
  m.foldl (fun acc p => insertDesc p acc) []

/-- `get_all_composer_threads`: the global instance's records override each
other in scan order, workspace records merge by timestamp, and the result is
presented newest-created first. -/
def globalRecsOf : Option StoreInstance → List (String × ThreadData)
  | some g => getComposerThreads g
  | none => []

/-- The global instance's records (none when the global store is absent or
unreadable). -/
def getAllComposerThreads (globalInst : Option StoreInstance)
    (workspaces : List StoreInstance) : List (String × ThreadData) :=
  sortByCreatedAtDesc
    (allThreadsMap (globalRecsOf globalInst)
      ((workspaces.map getComposerThreads).flatten))

/-! ## Theorems settling the claims -/

/-- Following the claim's words for C9: the first *string* among the `role`,
`authorRole` and `sender` fields (for comparison with the source's
first-*truthy* chain). -/
def firstStringField (b : Bubble) : Option String :=
  match [b.role, b.authorRole, b.sender].filterMap (fun v =>
      match v with
      | some (jstr s) => some s
      | _ => none) with
  | [] => none
  | s :: _ => some s

/-- The fallback stage of the amended role-resolution rule of C9: the first
*truthy* value among `role`, `authorRole`, `sender` decides when it is a
string whose lowercasing is a known token; otherwise `unknown`. -/
def roleAmendedFallback (b : Bubble) : String :=
  match firstTruthy [b.role, b.authorRole, b.sender] with
  | some (jstr s) =>
    if ["user", "human", "client"].contains s.toLower then "user"
    else if ["assistant", "ai", "agent", "bot", "model"].contains s.toLower then
      "assistant"
    else "unknown"
  | _ => "unknown"

/-- The amended role-resolution rule of C9, following its words: a numeric
tag equal to 1 or 2 decides (a Python `True` counts as 1); any other tag
value falls through to the fallback stage. -/
def roleAmended (b : Bubble) : String :=
  match b.type with
  | some (jnum n) =>
    if n = 1 then "user"
    else if n = 2 then "assistant"
    else roleAmendedFallback b
  | some (jbool bv) => if bv then "user" else roleAmendedFallback b
  | _ => roleAmendedFallback b

/-- A bubble whose `role` field is the number 5 and whose `authorRole` is the
string `user`: the first *string* among the fields is `user`. -/
def roleCexBubble : Bubble :=
  { Bubble.empty with role := some (jnum 5), authorRole := some (jstr "user") }

/-- C9 counterexample: the claim resolves `roleCexBubble` to `user` (its
first string field is a user-like token and no type tag is present), but the
code's `or`-chain selects the truthy non-string `role` value and resolves
`unknown`. -/
theorem c9_counterexample :
    firstStringField roleCexBubble = some "user" ∧
    getMessageRole roleCexBubble = "unknown" := ⟨rfl, rfl⟩

/-- C9 (amended): role resolution follows `roleAmended`: a numeric tag equal
to 1 resolves user and 2 assistant; any other tag value falls through to the
fallback; the fallback examines the first *truthy* value among the role,
authorRole and sender fields, matching it case-insensitively when it is a
string; otherwise the role is `unknown`. -/
theorem c9_role_resolution (b : Bubble) : getMessageRole b = roleAmended b := by
  have hfb : (match firstTruthy [b.role, b.authorRole, b.sender] with
       | some (jstr s) =>
         let l := s.toLower
         if l = "user" ∨ l = "human" ∨ l = "client" then "user"
         else if l = "assistant" ∨ l = "ai" ∨ l = "agent" ∨ l = "bot" ∨ l = "model" then
           "assistant"
         else "unknown"
       | _ => "unknown")
      = roleAmendedFallback b := by
    unfold roleAmendedFallback
    rcases firstTruthy [b.role, b.authorRole, b.sender] with _ | w
    · rfl
    · rcases w with _ | bv | n | s | xs | fs
      · rfl
      · rfl
      · rfl
      · have h1 : (["user", "human", "client"].contains s.toLower = true) ↔
            (s.toLower = "user" ∨ s.toLower = "human" ∨ s.toLower = "client") := by simp
        have h2 : (["assistant", "ai", "agent", "bot", "model"].contains s.toLower = true) ↔
            (s.toLower = "assistant" ∨ s.toLower = "ai" ∨ s.toLower = "agent" ∨
              s.toLower = "bot" ∨ s.toLower = "model") := by simp
        exact if_congr h1.symm rfl (if_congr h2.symm rfl rfl)
      · rfl
      · rfl
  unfold getMessageRole roleAmended
  rcases htype : b.type with _ | v
  · exact hfb
  · rcases v with _ | bv | n | s | xs | fs
    · exact hfb
    · rcases bv with _ | _
      · exact hfb
      · rfl
    · by_cases h1 : n = 1
      · subst h1; rfl
      · by_cases h2 : n = 2
        · subst h2; rfl
        · simp only [if_neg h1, if_neg h2]
          exact hfb
    · exact hfb
    · exact hfb
    · exact hfb

theorem strMk_data (s : String) : String.mk s.data = s := by cases s; rfl

theorem stringDataExt {s t : String} (h : s.data = t.data) : s = t := by
  cases s; cases t; simp_all

theorem lastDotIdx_append_md (xs : List Char) :
    lastDotIdx (xs ++ ['.', 'm', 'd']) = some xs.length := by
  induction xs with
  | nil => rfl
  | cons c rest ih => simp [lastDotIdx, ih]

theorem pathStem_mk_append_md (xs : List Char) (hx : 0 < xs.length) :
    pathStem (String.mk (xs ++ ['.', 'm', 'd'])) = String.mk xs := by
  have hstep : pathStem (String.mk (xs ++ ['.', 'm', 'd']))
      = if 0 < xs.length ∧ xs.length + 1 < (xs ++ ['.', 'm', 'd']).length then
          strTake xs.length (String.mk (xs ++ ['.', 'm', 'd']))
        else String.mk (xs ++ ['.', 'm', 'd']) := by
    unfold pathStem
    rw [show (String.mk (xs ++ ['.', 'm', 'd'])).data = xs ++ ['.', 'm', 'd'] from rfl]
    rw [lastDotIdx_append_md]
  rw [hstep, if_pos ⟨hx, by simp⟩]
  unfold strTake
  rw [show (String.mk (xs ++ ['.', 'm', 'd'])).data = xs ++ ['.', 'm', 'd'] from rfl]
  rw [List.take_left]

/-- The stem/fingerprint core of C10 over the filename's shape. -/
theorem c10_core (ts slug cid8 : String) (h8 : cid8.data.length = 8) :
    (∃ pre, ts ++ "-" ++ slug ++ "-" ++ cid8 ++ ".md" = pre ++ ("-" ++ cid8 ++ ".md")) ∧
    strTakeRight 8 (pathStem (ts ++ "-" ++ slug ++ "-" ++ cid8 ++ ".md")) = cid8 := by
  have hdash : ("-" : String).data = ['-'] := rfl
  have hmd : (".md" : String).data = ['.', 'm', 'd'] := rfl
  constructor
  · refine ⟨ts ++ "-" ++ slug, ?_⟩
    apply stringDataExt
    simp [String.data_append, List.append_assoc]
  · have hd : (ts ++ "-" ++ slug ++ "-" ++ cid8 ++ ".md") =
        String.mk (((ts.data ++ '-' :: slug.data ++ ['-']) ++ cid8.data) ++ ['.', 'm', 'd']) := by
      apply stringDataExt
      simp [String.data_append, hdash, hmd, List.append_assoc]
    rw [hd]
    rw [pathStem_mk_append_md ((ts.data ++ '-' :: slug.data ++ ['-']) ++ cid8.data)
      (by simp [List.length_append])]
    unfold strTakeRight
    rw [show (String.mk ((ts.data ++ '-' :: slug.data ++ ['-']) ++ cid8.data)).data
        = (ts.data ++ '-' :: slug.data ++ ['-']) ++ cid8.data from rfl]
    rw [show ((ts.data ++ '-' :: slug.data ++ ['-']) ++ cid8.data).length - 8
        = (ts.data ++ '-' :: slug.data ++ ['-']).length from by
      simp [List.length_append, h8]
      omega]
    rw [List.drop_left]

/-- C10: for a thread id of length at least 8 and any thread record and
non-empty first message, the generated filename ends with `-` followed by
the id's first 8 characters followed by `.md`, and the filename stem's last
8 characters (the key `export_conversations` indexes existing files by)
equal the id's first 8 characters. -/
theorem c10_fingerprint (clock : Clock) (td : ThreadData) (cid : String)
    (fm : String) (h8 : 8 ≤ cid.length) (hfm : fm ≠ "") :
    (∃ pre, generateFilename clock td cid fm = pre ++ ("-" ++ strTake 8 cid ++ ".md")) ∧
    strTakeRight 8 (pathStem (generateFilename clock td cid fm)) = strTake 8 cid := by
  have h8' : (strTake 8 cid).data.length = 8 := by
    have h8d : 8 ≤ cid.data.length := h8
    simp only [strTake]
    rw [List.length_take]
    omega
  exact c10_core (clock.fmtTsFile (td.createdAt.getD 0)) _ (strTake 8 cid) h8'

/-- Witness for C10 at a concrete id, record and message. -/
theorem c10_fingerprint_witness :
    (8 ≤ ("abc12345def" : String).length ∧ ("Fix" : String) ≠ "") ∧
    ((∃ pre, generateFilename ⟨"N", fun _ => "T", fun _ => "F"⟩
        ⟨none, none, none, none⟩ "abc12345def" "Fix" =
          pre ++ ("-" ++ strTake 8 "abc12345def" ++ ".md")) ∧
      strTakeRight 8 (pathStem (generateFilename ⟨"N", fun _ => "T", fun _ => "F"⟩
        ⟨none, none, none, none⟩ "abc12345def" "Fix")) = strTake 8 "abc12345def") :=
  ⟨⟨by decide, by decide⟩,
    c10_fingerprint ⟨"N", fun _ => "T", fun _ => "F"⟩ ⟨none, none, none, none⟩
      "abc12345def" "Fix" (by decide) (by decide)⟩

/-- A thread record carrying no timestamps at all (`threadUpdatedMs` 0). -/
def zeroTsThread : ThreadData := { name := none, createdAt := none, lastUpdatedAt := none, context := none }

/-- An existing-file index with fingerprint `abcdefgh` at mtime 5 ms. -/
def cexExisting : String → Option Int := fun k => if k = "abcdefgh" then some 5 else none

/-- C2 counterexample: for a thread whose record has no timestamps, a
matching output file with mtime at least the (zero) last-update timestamp is
present, yet the controller classifies the thread needs-export, because the
code additionally requires a truthy (nonzero) timestamp. -/
theorem c2_counterexample :
    cexExisting (strTake 8 "abcdefghXYZ") = some 5 ∧
    threadUpdatedMs zeroTsThread ≤ 5 ∧
    isUpToDate cexExisting "abcdefghXYZ" zeroTsThread = false :=
  ⟨by decide, by decide, by decide⟩

/-- C2 (amended): a thread is classified up-to-date iff its last-update
timestamp (falling back to the creation timestamp, then 0) is nonzero AND a
file is indexed under the id's 8-character fingerprint AND that file's
modification time is at least the timestamp; an up-to-date thread is not in
the needs-export list, the only list handed to bubble aggregation and
rendering. -/
theorem c2_up_to_date (existing : String → Option Int) (cid : String)
    (t : ThreadData) (threads : List (String × ThreadData)) :
    (isUpToDate existing cid t = true ↔
      (threadUpdatedMs t ≠ 0 ∧
        ∃ m, existing (strTake 8 cid) = some m ∧ threadUpdatedMs t ≤ m)) ∧
    (isUpToDate existing cid t = true → (cid, t) ∉ needsExport existing threads) := by
  constructor
  · unfold isUpToDate
    split_ifs with h0
    · simp [h0]
    · cases hm : existing (strTake 8 cid) with
      | none => simp [hm, h0]
      | some m => simp [hm, h0]
  · intro hu
    unfold needsExport
    simp [List.mem_filter, hu]

/-- A renderer clock with fixed formatting oracles, for concrete runs. -/
def cexClockA : Clock :=
  ⟨"2024-01-01 00:00:00", fun _ => "1970-01-01 00:00:00", fun _ => "1970-01-01T0000"⟩

/-- A bubble with plain string content `Hello`. -/
def bubbleHello : Bubble := { Bubble.empty with content := some (jstr "Hello") }

/-- A bubble table whose thread has an empty first message and a non-empty
second message. -/
def cexBubblesByCid : String → List Bubble := fun _ => [Bubble.empty, bubbleHello]

/-- C4 counterexample: a thread whose first message body is empty after
trimming (but whose second message has content) is NOT skipped: the export
loop scans for the first non-blank content and writes a file. -/
theorem c4_counterexample :
    pyStrip (extractMessageContent ((cexBubblesByCid "abc12345").headD Bubble.empty)) = "" ∧
    (cexBubblesByCid "abc12345").length = 2 ∧
    (exportEntry cexClockA cexBubblesByCid "abc12345" zeroTsThread).isSome = true :=
  ⟨rfl, rfl, rfl⟩

/-- C4 (amended): a selected thread is skipped (no output file written) iff
it has zero reconstructed messages or every message body is empty after
trimming — equivalently, iff no message has a non-blank extracted body. -/
theorem c4_skip_iff (clock : Clock) (bubblesByCid : String → List Bubble)
    (cid : String) (t : ThreadData) :
    exportEntry clock bubblesByCid cid t = none ↔
      ∀ b ∈ bubblesByCid cid, pyStrip (extractMessageContent b) = "" := by
  have hfc : ∀ bs : List Bubble,
      (firstContent bs = "" ↔ ∀ b ∈ bs, pyStrip (extractMessageContent b) = "") := by
    intro bs
    induction bs with
    | nil => simp [firstContent]
    | cons b rest ih =>
      unfold firstContent
      by_cases hb : pyStrip (extractMessageContent b) = ""
      · rw [if_neg (by simp [hb])]
        constructor
        · intro h
          intro x hx
          rcases List.mem_cons.mp hx with rfl | hx'
          · exact hb
          · exact (ih.mp h) x hx'
        · intro h
          exact ih.mpr (fun x hx => h x (List.mem_cons_of_mem b hx))
      · rw [if_pos hb]
        constructor
        · intro h
          exact absurd (by rw [h]; rfl : pyStrip (extractMessageContent b) = "") hb
        · intro h
          exact absurd (h b (List.mem_cons_self b rest)) hb
  unfold exportEntry
  split_ifs with h1 h2
  · have : bubblesByCid cid = [] := by simpa [List.isEmpty_iff] using h1
    simp [this]
  · simp only [true_iff]
    exact (hfc (bubblesByCid cid)).mp h2
  · constructor
    · intro h; exact absurd h (by simp)
    · intro h
      exact absurd ((hfc (bubblesByCid cid)).mpr h) h2

/-- Whether `pat` begins the list `cs`. -/
def startsList : List Char → List Char → Bool
  | [], _ => true
  | _ :: _, [] => false
  | p :: ps, c :: cs => p == c && startsList ps cs

/-- Whether `pat` occurs contiguously inside `cs`. -/
def listHasSub (pat : List Char) : List Char → Bool
  | [] => pat.isEmpty
  | c :: rest => startsList pat (c :: rest) || listHasSub pat rest

/-- Whether an action line contains the explicit `(args unavailable)`
marker. -/
def containsArgsUnavailable (l : String) : Bool :=
  listHasSub ("(args unavailable)").data l.data

/-- A `codebase_search` invocation whose raw arguments payload fails to
parse (and with no `params` fallback). -/
def cexToolData : ToolFormerData :=
  { name := some "codebase_search", rawArgs := RawField.malformed,
    params := RawField.absent, result := RawField.absent }

/-- The bubble carrying `cexToolData`. -/
def cexSearchBubble : Bubble := { Bubble.empty with toolFormerData := some cexToolData }

/-- C5 counterexample: a tool invocation with an unparsable arguments payload
(`codebase_search`) formats to a single line with an empty query and NO
"arguments unavailable" marker — the marker exists only for the read/write/
edit/run kinds. -/
theorem c5_counterexample :
    cexToolData.rawArgs = RawField.malformed ∧
    extractIntermediateActions cexSearchBubble = ["🔍 Searched: "] ∧
    (extractIntermediateActions cexSearchBubble).any containsArgsUnavailable = false :=
  ⟨rfl, rfl, rfl⟩

/-- C5 (amended): the formatter is a total function (it never raises on the
modelled domain), and for the four kinds with an explicit marker —
`read_file`, `write`, `search_replace`, `run_terminal_cmd` — an invocation
whose arguments cannot be recovered from either payload formats to output
containing an `(args unavailable)` line.  Other kinds degrade to lines with
empty argument values and no marker. -/
theorem c5_args_unavailable (b : Bubble) (tfd : ToolFormerData)
    (htfd : b.toolFormerData = some tfd)
    (hargs : parseToolArgs tfd = [])
    (hname : tfd.name = some "read_file" ∨ tfd.name = some "write" ∨
      tfd.name = some "search_replace" ∨ tfd.name = some "run_terminal_cmd") :
    (extractIntermediateActions b).any containsArgsUnavailable = true := by
  have hread : containsArgsUnavailable "📖 Read file: (args unavailable)" = true := by decide
  have hwrite : containsArgsUnavailable "✏️ Write file: (args unavailable)" = true := by decide
  have hedit : containsArgsUnavailable "🔧 Edit file: (args unavailable)" = true := by decide
  have hrun : containsArgsUnavailable "💻 Run: (args unavailable)" = true := by decide
  suffices h : (toolActions b).any containsArgsUnavailable = true by
    unfold extractIntermediateActions
    simp [List.any_append, h]
  unfold toolActions
  rw [htfd]
  rcases hname with hn | hn | hn | hn <;>
    simp [hn, hargs, getJD, getJ, JVal.truthy, getStrD, hread, hwrite, hedit, hrun]

/-- A `read_file` invocation with an unparsable arguments payload. -/
def cexReadTool : ToolFormerData :=
  { name := some "read_file", rawArgs := RawField.malformed,
    params := RawField.absent, result := RawField.absent }

/-- The bubble carrying `cexReadTool`. -/
def cexReadBubble : Bubble := { Bubble.empty with toolFormerData := some cexReadTool }

/-- Witness for C5 at a concrete `read_file` invocation. -/
theorem c5_args_unavailable_witness :
    (cexReadBubble.toolFormerData = some cexReadTool ∧ parseToolArgs cexReadTool = [] ∧
      cexReadTool.name = some "read_file") ∧
    (extractIntermediateActions cexReadBubble).any containsArgsUnavailable = true :=
  ⟨⟨rfl, rfl, rfl⟩, c5_args_unavailable cexReadBubble cexReadTool rfl rfl (Or.inl rfl)⟩

/-- An existing-file index holding fingerprint `abcdefgh` at mtime 100 ms. -/
def upExisting : String → Option Int := fun k => if k = "abcdefgh" then some 100 else none

/-- A thread record last updated at 50 ms. -/
def t50 : ThreadData := { name := none, createdAt := none, lastUpdatedAt := some 50, context := none }

/-- Witness for C2 at a concrete index, id and record. -/
theorem c2_up_to_date_witness :
    (isUpToDate upExisting "abcdefghX" t50 = true ↔
      (threadUpdatedMs t50 ≠ 0 ∧
        ∃ m, upExisting (strTake 8 "abcdefghX") = some m ∧ threadUpdatedMs t50 ≤ m)) ∧
    (isUpToDate upExisting "abcdefghX" t50 = true →
      ("abcdefghX", t50) ∉ needsExport upExisting [("abcdefghX", t50)]) :=
  c2_up_to_date upExisting "abcdefghX" t50 [("abcdefghX", t50)]

/-- Witness for C4 at a concrete thread with no bubbles. -/
theorem c4_skip_iff_witness :
    (exportEntry cexClockA (fun _ => []) "abc" zeroTsThread = none ↔
      ∀ b ∈ (fun _ => ([] : List Bubble)) "abc", pyStrip (extractMessageContent b) = "") :=
  c4_skip_iff cexClockA (fun _ => []) "abc" zeroTsThread

/-- Witness for C9 at the counterexample bubble. -/
theorem c9_role_resolution_witness :
    getMessageRole roleCexBubble = roleAmended roleCexBubble :=
  c9_role_resolution roleCexBubble

/-- A clock reading `2024-01-01` (entity-timestamp formatting fixed). -/
def cexClock1 : Clock := ⟨"2024-01-01 00:00:00", fun _ => "T", fun _ => "F"⟩

/-- The same clock one day later: identical `fmtTs`, different `nowStr`. -/
def cexClock2 : Clock := ⟨"2024-01-02 00:00:00", fun _ => "T", fun _ => "F"⟩

/-- An empty context-lookup capability. -/
def noCtxLookup : String → Option ContextData := fun _ => none

/-- C1 counterexample: identical reconstructed entities (thread, id, bubbles,
context) rendered by two runs whose wall clocks differ produce different
bytes — the `**Exported:**` header embeds `datetime.now()`. -/
theorem c1_counterexample :
    cexClock1.fmtTs = cexClock2.fmtTs ∧
    formatConversationMarkdown cexClock1 noCtxLookup zeroTsThread "x" [] "f.md" ≠
      formatConversationMarkdown cexClock2 noCtxLookup zeroTsThread "x" [] "f.md" := by
  refine ⟨rfl, ?_⟩
  have hl1 : mdLinesOf cexClock1 noCtxLookup zeroTsThread "x" []
      = ["# Untitled Conversation", "", "**Exported:** 2024-01-01 00:00:00  ",
         "**Thread ID:** `x`  ", "**Created:** T  ", "**Last Updated:** T  ",
         "**Messages:** 0  ", ""] := by decide
  have hl2 : mdLinesOf cexClock2 noCtxLookup zeroTsThread "x" []
      = ["# Untitled Conversation", "", "**Exported:** 2024-01-02 00:00:00  ",
         "**Thread ID:** `x`  ", "**Created:** T  ", "**Last Updated:** T  ",
         "**Messages:** 0  ", ""] := by decide
  unfold formatConversationMarkdown
  rw [hl1, hl2]
  decide

/-- C1 (amended): given the same reconstructed entities, two runs' rendered
line lists agree except possibly at index 2 — the `**Exported:**` header
line, the only line derived from the wall clock — and agree everywhere when
the wall-clock readings also coincide. -/
theorem c1_renderer_determinism (cl1 cl2 : Clock) (ctx : String → Option ContextData)
    (td : ThreadData) (cid : String) (bubbles : List Bubble)
    (hts : cl1.fmtTs = cl2.fmtTs) :
    (mdLinesOf cl1 ctx td cid bubbles).eraseIdx 2 =
      (mdLinesOf cl2 ctx td cid bubbles).eraseIdx 2 ∧
    (cl1.nowStr = cl2.nowStr →
      mdLinesOf cl1 ctx td cid bubbles = mdLinesOf cl2 ctx td cid bubbles) := by
  constructor
  · unfold mdLinesOf headerLines
    rw [hts]
    rfl
  · intro hnow
    unfold mdLinesOf headerLines
    rw [hts, hnow]

/-- Witness for C1 at concrete clocks sharing the timestamp formatter. -/
theorem c1_renderer_determinism_witness :
    cexClock1.fmtTs = cexClock2.fmtTs ∧
    ((mdLinesOf cexClock1 noCtxLookup zeroTsThread "x" []).eraseIdx 2 =
        (mdLinesOf cexClock2 noCtxLookup zeroTsThread "x" []).eraseIdx 2 ∧
      (cexClock1.nowStr = cexClock2.nowStr →
        mdLinesOf cexClock1 noCtxLookup zeroTsThread "x" [] =
          mdLinesOf cexClock2 noCtxLookup zeroTsThread "x" [])) :=
  ⟨rfl, c1_renderer_determinism cexClock1 cexClock2 noCtxLookup zeroTsThread "x" [] rfl⟩

/-- C8 (confirmed): a bubble with blank extracted content, no action lines,
no context information and no thinking text is skipped by the renderer: its
iteration appends no lines and leaves the role state unchanged, so the loop
continues as if the bubble were not at the head. -/
theorem c8_empty_bubble_skipped (ctx : String → Option ContextData) (b : Bubble)
    (rest : List Bubble) (lastRole : Option String)
    (h1 : pyStrip (extractMessageContent b) = "")
    (h2 : extractIntermediateActions b = [])
    (h3 : contextInfo (bubbleCtx ctx b) b = [])
    (h4 : extractThinkingContent b = "") :
    renderLoop ctx (b :: rest) lastRole = renderLoop ctx rest lastRole := by
  unfold renderLoop
  simp only [List.length_cons]
  rw [renderLoopF.eq_def]
  simp [h1, h2, h3, h4]

/-- Witness for C8: the all-absent bubble is skipped. -/
theorem c8_empty_bubble_skipped_witness :
    (pyStrip (extractMessageContent Bubble.empty) = "" ∧
      extractIntermediateActions Bubble.empty = [] ∧
      contextInfo (bubbleCtx noCtxLookup Bubble.empty) Bubble.empty = [] ∧
      extractThinkingContent Bubble.empty = "") ∧
    renderLoop noCtxLookup [Bubble.empty, bubbleHello] none =
      renderLoop noCtxLookup [bubbleHello] none :=
  ⟨⟨rfl, rfl, rfl, rfl⟩,
    c8_empty_bubble_skipped noCtxLookup Bubble.empty [bubbleHello] none rfl rfl rfl rfl⟩

/-- The last record observed for an id within one scan (later rows
overwrite). -/
def lastOccurrence (recs : List (String × ThreadData)) (c : String) : Option ThreadData :=
  match recs with
  | [] => none
  | p :: rest =>
    match lastOccurrence rest c with
    | some v => some v
    | none => if p.1 = c then some p.2 else none

/-- The records observed for an id in the workspace stream, in scan order. -/
def wsOccurrences : List (String × ThreadData) → String → List ThreadData
  | [], _ => []
  | p :: rest, c => if p.1 = c then p.2 :: wsOccurrences rest c else wsOccurrences rest c

/-- The strict-improvement fold of C3's amendment: starting from an optional
current record, keep the earliest record attaining the maximum
`lastUpdatedAt` (absent as 0). -/
def pickLatest : Option ThreadData → List ThreadData → Option ThreadData
  | cur, [] => cur
  | none, d :: ds => pickLatest (some d) ds
  | some cur, d :: ds => pickLatest (some (if luOf d > luOf cur then d else cur)) ds

theorem lastOccurrence_cons (p : String × ThreadData)
    (rest : List (String × ThreadData)) (c : String) :
    lastOccurrence (p :: rest) c
      = match lastOccurrence rest c with
        | some v => some v
        | none => if p.1 = c then some p.2 else none := rfl

theorem dictLookup_dictInsert (m : List (String × ThreadData)) (c k : String)
    (d : ThreadData) :
    dictLookup (dictInsert m k d) c = if k = c then some d else dictLookup m c := by
  induction m with
  | nil => rfl
  | cons q rest ih =>
    by_cases hk : q.1 = k
    · unfold dictInsert
      rw [if_pos hk]
      by_cases hc : k = c
      · simp [dictLookup, hc]
      · have hqc : ¬ q.1 = c := fun h => hc (hk.symm.trans h)
        simp [dictLookup, hc, hqc]
    · unfold dictInsert
      rw [if_neg hk]
      by_cases hc : q.1 = c
      · have hkc : ¬ k = c := fun h => hk (hc.trans h.symm ▸ rfl)
        simp [dictLookup, hc, hkc]
      · simp only [dictLookup, if_neg hc]
        exact ih

theorem lookup_global_fold (g : List (String × ThreadData))
    (acc : List (String × ThreadData)) (c : String) :
    dictLookup (g.foldl (fun a p => dictInsert a p.1 p.2) acc) c
      = match lastOccurrence g c with
        | some v => some v
        | none => dictLookup acc c := by
  induction g generalizing acc with
  | nil => rfl
  | cons p rest ih =>
    rw [List.foldl_cons, ih, lastOccurrence_cons]
    cases hl : lastOccurrence rest c with
    | some v => rfl
    | none =>
      rw [dictLookup_dictInsert]
      by_cases hp : p.1 = c
      · simp [hp]
      · simp [hp]

theorem wsOccurrences_cons (p : String × ThreadData)
    (rest : List (String × ThreadData)) (c : String) :
    wsOccurrences (p :: rest) c
      = if p.1 = c then p.2 :: wsOccurrences rest c else wsOccurrences rest c := rfl

theorem pickLatest_cons_none (d : ThreadData) (ds : List ThreadData) :
    pickLatest none (d :: ds) = pickLatest (some d) ds := rfl

theorem pickLatest_cons_some (cur d : ThreadData) (ds : List ThreadData) :
    pickLatest (some cur) (d :: ds)
      = pickLatest (some (if luOf d > luOf cur then d else cur)) ds := rfl

theorem mergeWorkspaceRecord_eq (acc : List (String × ThreadData))
    (p : String × ThreadData) :
    mergeWorkspaceRecord acc p
      = match dictLookup acc p.1 with
        | none => dictInsert acc p.1 p.2
        | some cur => if luOf p.2 > luOf cur then dictInsert acc p.1 p.2 else acc := rfl

theorem lookup_merge_fold (ws : List (String × ThreadData))
    (acc : List (String × ThreadData)) (c : String) :
    dictLookup (ws.foldl mergeWorkspaceRecord acc) c
      = pickLatest (dictLookup acc c) (wsOccurrences ws c) := by
  induction ws generalizing acc with
  | nil =>
    rw [List.foldl_nil]
    cases dictLookup acc c <;> rfl
  | cons p rest ih =>
    rw [List.foldl_cons, ih, wsOccurrences_cons]
    by_cases hp : p.1 = c
    · rw [if_pos hp]
      cases hcur : dictLookup acc p.1 with
      | none =>
        have hacc : dictLookup acc c = none := by rw [← hp]; exact hcur
        have hmerge : mergeWorkspaceRecord acc p = dictInsert acc p.1 p.2 := by
          rw [mergeWorkspaceRecord_eq, hcur]
        rw [hmerge, dictLookup_dictInsert, if_pos hp, hacc, pickLatest_cons_none]
      | some cur =>
        have hacc : dictLookup acc c = some cur := by rw [← hp]; exact hcur
        have hmerge : mergeWorkspaceRecord acc p
            = if luOf p.2 > luOf cur then dictInsert acc p.1 p.2 else acc := by
          rw [mergeWorkspaceRecord_eq, hcur]
        rw [hacc, pickLatest_cons_some]
        by_cases hlu : luOf p.2 > luOf cur
        · rw [hmerge, if_pos hlu, if_pos hlu, dictLookup_dictInsert, if_pos hp]
        · rw [hmerge, if_neg hlu, if_neg hlu, hacc]
    · rw [if_neg hp]
      cases hcur : dictLookup acc p.1 with
      | none =>
        have hmerge : mergeWorkspaceRecord acc p = dictInsert acc p.1 p.2 := by
          rw [mergeWorkspaceRecord_eq, hcur]
        rw [hmerge, dictLookup_dictInsert, if_neg hp]
      | some cur =>
        have hmerge : mergeWorkspaceRecord acc p
            = if luOf p.2 > luOf cur then dictInsert acc p.1 p.2 else acc := by
          rw [mergeWorkspaceRecord_eq, hcur]
        by_cases hlu : luOf p.2 > luOf cur
        · rw [hmerge, if_pos hlu, dictLookup_dictInsert, if_neg hp]
        · rw [hmerge, if_neg hlu]

theorem pickLatest_mem_max (ds : List ThreadData) :
    ∀ (cur : Option ThreadData) (v : ThreadData), pickLatest cur ds = some v →
      v ∈ cur.toList ++ ds ∧ ∀ d ∈ cur.toList ++ ds, luOf d ≤ luOf v := by
  induction ds with
  | nil =>
    intro cur v h
    cases cur with
    | none => exact absurd h (by simp [pickLatest])
    | some c0 =>
      have : c0 = v := by simpa [pickLatest] using h
      subst this
      simp
  | cons d ds' ih =>
    intro cur v h
    cases cur with
    | none =>
      have h' : pickLatest (some d) ds' = some v := h
      obtain ⟨hmem, hmax⟩ := ih (some d) v h'
      constructor
      · simpa using hmem
      · intro x hx
        exact hmax x (by simpa using hx)
    | some c0 =>
      have h' : pickLatest (some (if luOf d > luOf c0 then d else c0)) ds' = some v := h
      obtain ⟨hmem, hmax⟩ := ih _ v h'
      have hm_mem : (if luOf d > luOf c0 then d else c0) ∈ ([c0, d] : List ThreadData) := by
        split_ifs <;> simp
      have hc0 : luOf c0 ≤ luOf (if luOf d > luOf c0 then d else c0) := by
        split_ifs with hgt
        · omega
        · exact le_refl _
      have hd : luOf d ≤ luOf (if luOf d > luOf c0 then d else c0) := by
        split_ifs with hgt
        · exact le_refl _
        · omega
      have hmv : luOf (if luOf d > luOf c0 then d else c0) ≤ luOf v :=
        hmax _ (by simp)
      constructor
      · rcases (by simpa using hmem : v = (if luOf c0 < luOf d then d else c0) ∨ v ∈ ds') with
          heq | hin
        · rw [heq]
          rcases (by simpa using hm_mem : (if luOf c0 < luOf d then d else c0) = c0 ∨
              (if luOf c0 < luOf d then d else c0) = d) with h1 | h1 <;> simp [h1]
        · simp [hin]
      · intro x hx
        rcases (by simpa using hx : x = c0 ∨ x = d ∨ x ∈ ds') with rfl | rfl | hin
        · omega
        · omega
        · exact hmax x (by simp [hin])

theorem insertDesc_perm (p : String × ThreadData) (l : List (String × ThreadData)) :
    (insertDesc p l).Perm (p :: l) := by
  induction l with
  | nil => exact List.Perm.refl _
  | cons q qs ih =>
    unfold insertDesc
    split_ifs with h
    · exact (ih.cons q).trans (List.Perm.swap p q qs)
    · exact List.Perm.refl _

theorem sortByCreatedAtDesc_perm (m : List (String × ThreadData)) :
    (sortByCreatedAtDesc m).Perm m := by
  have hgen : ∀ (l acc : List (String × ThreadData)),
      (l.foldl (fun a p => insertDesc p a) acc).Perm (l ++ acc) := by
    intro l
    induction l with
    | nil => intro acc; simp
    | cons p l' ih =>
      intro acc
      rw [List.foldl_cons]
      refine (ih (insertDesc p acc)).trans ?_
      have h1 : (l' ++ insertDesc p acc).Perm (l' ++ p :: acc) :=
        List.Perm.append_left l' (insertDesc_perm p acc)
      refine h1.trans ?_
      exact List.perm_middle
  simpa using hgen m []

/-- C3 (amended): the reconstructed record for an id is `pickLatest` over the
candidates — the LAST record observed for that id in the global instance
(later global rows overwrite unconditionally, with no timestamp comparison)
followed by the workspace records in scan order, keeping the earliest record
attaining the maximum `lastUpdatedAt` (absent as 0); the result therefore
attains the maximum timestamp among those candidates, and the presentation
sort only permutes the map. -/
theorem c3_merge_rule (gi : Option StoreInstance) (wss : List StoreInstance)
    (c : String) :
    (getAllComposerThreads gi wss).Perm
      (allThreadsMap (globalRecsOf gi) ((wss.map getComposerThreads).flatten)) ∧
    dictLookup (allThreadsMap (globalRecsOf gi)
        ((wss.map getComposerThreads).flatten)) c
      = pickLatest (lastOccurrence (globalRecsOf gi) c)
          (wsOccurrences ((wss.map getComposerThreads).flatten) c) ∧
    ∀ v, dictLookup (allThreadsMap (globalRecsOf gi)
        ((wss.map getComposerThreads).flatten)) c = some v →
      v ∈ (lastOccurrence (globalRecsOf gi) c).toList
          ++ wsOccurrences ((wss.map getComposerThreads).flatten) c ∧
      ∀ d ∈ (lastOccurrence (globalRecsOf gi) c).toList
          ++ wsOccurrences ((wss.map getComposerThreads).flatten) c,
        luOf d ≤ luOf v := by
  have hlook : dictLookup (allThreadsMap (globalRecsOf gi)
      ((wss.map getComposerThreads).flatten)) c
      = pickLatest (lastOccurrence (globalRecsOf gi) c)
          (wsOccurrences ((wss.map getComposerThreads).flatten) c) := by
    unfold allThreadsMap
    rw [lookup_merge_fold, lookup_global_fold]
    cases lastOccurrence (globalRecsOf gi) c <;> rfl
  refine ⟨sortByCreatedAtDesc_perm _, hlook, ?_⟩
  intro v hv
  rw [hlook] at hv
  exact pickLatest_mem_max _ _ v hv

/-- A thread record named `A` with `lastUpdatedAt` 100. -/
def thrA : ThreadData := { name := some (jstr "A"), createdAt := none, lastUpdatedAt := some 100, context := none }

/-- A thread record named `B` with `lastUpdatedAt` 50. -/
def thrB : ThreadData := { name := some (jstr "B"), createdAt := none, lastUpdatedAt := some 50, context := none }

/-- A global store instance whose scan yields two records for the same id:
first the newer `thrA`, then the older `thrB`. -/
def cexGlobalInst : StoreInstance :=
  { composerRows := [("c", some thrA), ("c", some thrB)], allComposers := [] }

/-- C3 counterexample: the id `c` is observed with `thrA` (timestamp 100)
before `thrB` (timestamp 50), yet the reconstructed record is `thrB` — the
global-instance merge overwrites unconditionally, ignoring timestamps, so
the result does not have the greatest last-updated timestamp. -/
theorem c3_counterexample :
    ("c", thrA) ∈ getComposerThreads cexGlobalInst ∧
    luOf thrB < luOf thrA ∧
    dictLookup (getAllComposerThreads (some cexGlobalInst) []) "c" = some thrB := by
  refine ⟨?_, by decide, rfl⟩
  simp [getComposerThreads, cexGlobalInst]

/-- Witness for C3 at the concrete counterexample instance. -/
theorem c3_merge_rule_witness :
    (getAllComposerThreads (some cexGlobalInst) []).Perm
      (allThreadsMap (globalRecsOf (some cexGlobalInst))
        ((([] : List StoreInstance).map getComposerThreads).flatten)) ∧
    dictLookup (allThreadsMap (globalRecsOf (some cexGlobalInst))
        ((([] : List StoreInstance).map getComposerThreads).flatten)) "c"
      = pickLatest (lastOccurrence (globalRecsOf (some cexGlobalInst)) "c")
          (wsOccurrences ((([] : List StoreInstance).map getComposerThreads).flatten) "c") ∧
    ∀ v, dictLookup (allThreadsMap (globalRecsOf (some cexGlobalInst))
        ((([] : List StoreInstance).map getComposerThreads).flatten)) "c" = some v →
      v ∈ (lastOccurrence (globalRecsOf (some cexGlobalInst)) "c").toList
          ++ wsOccurrences ((([] : List StoreInstance).map getComposerThreads).flatten) "c" ∧
      ∀ d ∈ (lastOccurrence (globalRecsOf (some cexGlobalInst)) "c").toList
          ++ wsOccurrences ((([] : List StoreInstance).map getComposerThreads).flatten) "c",
        luOf d ≤ luOf v :=
  c3_merge_rule (some cexGlobalInst) [] "c"

/-! ## The action-only grouping and separator structure of the renderer -/

/-- The main loop's action-only test (source line 934). -/
def actionOnlyCond (ctx : String → Option ContextData) (b : Bubble) : Prop :=
  pyStrip (extractMessageContent b) = "" ∧ extractIntermediateActions b ≠ [] ∧
    contextInfo (bubbleCtx ctx b) b = [] ∧ extractThinkingContent b = ""

/-- The look-ahead's action-only test (source line 957), which inspects only
the four context-record field names. -/
def lookaheadActionOnlyCond (ctx : String → Option ContextData) (b : Bubble) : Prop :=
  pyStrip (extractMessageContent b) = "" ∧ extractIntermediateActions b ≠ [] ∧
    lookaheadCtxFields (bubbleCtx ctx b) = [] ∧ extractThinkingContent b = ""

theorem lookahead_empty_of_ctxInfo_empty (c : Option ContextData) (b : Bubble)
    (h : contextInfo c b = []) : lookaheadCtxFields c = [] := by
  have hall : ctxDataInfo c = [] ∧ gitDiffsBlock b = [] ∧ commitsBlock b = [] ∧
      pullRequestsBlock b = [] ∧ lintsBlock b = [] ∧ humanChangesBlock b = [] ∧
      attachedFoldersBlock b = [] ∧ recentlyViewedBlock b = [] ∧
      imagesBlock b = [] ∧ agenticBlock b = [] := by
    simpa [contextInfo] using h
  have hcd : ctxDataInfo c = [] := hall.1
  cases c with
  | none => rfl
  | some cd =>
    have h4 := hcd
    unfold ctxDataInfo at h4
    obtain ⟨h1, h2⟩ := List.append_eq_nil.mp h4
    obtain ⟨h1a, h1b⟩ := List.append_eq_nil.mp h1
    obtain ⟨h1c, h1d⟩ := List.append_eq_nil.mp h1a
    have hf : cd.files = [] := by
      by_contra hne
      rw [show filesCtxBlock cd.files = ("**Files Referenced (" ++
          toString cd.files.length ++ "):**") :: joinMap (fun f =>
            match f with
            | jobj fs =>
              match getJ fs "path" with
              | some p => ["- `" ++ pyStr p ++ "`"]
              | none => []
            | _ => []) cd.files ++ [""] from by
        unfold filesCtxBlock
        rw [if_neg (by simpa [List.isEmpty_iff] using hne)]] at h1c
      exact List.cons_ne_nil _ _ h1c
    have ht : cd.todos = [] := by
      by_contra hne
      unfold todosCtxBlock at h1d
      rw [if_neg (by simpa [List.isEmpty_iff] using hne)] at h1d
      exact List.cons_ne_nil _ _ h1d
    have htf : cd.terminalFiles = [] := by
      by_contra hne
      unfold terminalCtxBlock at h1b
      rw [if_neg (by simpa [List.isEmpty_iff] using hne)] at h1b
      exact List.cons_ne_nil _ _ h1b
    have hr : cd.cursorRules = [] := by
      by_contra hne
      unfold rulesCtxBlock at h2
      rw [if_neg (by simpa [List.isEmpty_iff] using hne)] at h2
      exact List.cons_ne_nil _ _ h2
    simp [lookaheadCtxFields, hf, ht, htf, hr]

theorem lookahead_of_actionOnly (ctx : String → Option ContextData) (b : Bubble)
    (h : actionOnlyCond ctx b) : lookaheadActionOnlyCond ctx b :=
  ⟨h.1, h.2.1, lookahead_empty_of_ctxInfo_empty _ _ h.2.2.1, h.2.2.2⟩

theorem renderLoopF_nil (ctx : String → Option ContextData) (fuel : Nat)
    (lastRole : Option String) : renderLoopF ctx fuel [] lastRole = [] := by
  cases fuel <;> rfl

theorem collectActionRun_cons (ctx : String → Option ContextData) (b : Bubble)
    (rest : List Bubble) :
    collectActionRun ctx (b :: rest)
      = if pyStrip (extractMessageContent b) = "" ∧ extractIntermediateActions b ≠ [] ∧
            lookaheadCtxFields (bubbleCtx ctx b) = [] ∧ extractThinkingContent b = "" then
          (extractIntermediateActions b ++ (collectActionRun ctx rest).1,
            (collectActionRun ctx rest).2)
        else ([], b :: rest) := rfl

theorem renderLoopF_cons (ctx : String → Option ContextData) (fuel : Nat)
    (b : Bubble) (rest : List Bubble) (lastRole : Option String) :
    renderLoopF ctx (fuel + 1) (b :: rest) lastRole
      = if pyStrip (extractMessageContent b) = "" ∧ extractIntermediateActions b = [] ∧
            contextInfo (bubbleCtx ctx b) b = [] ∧ extractThinkingContent b = "" then
          renderLoopF ctx fuel rest lastRole
        else
          if pyStrip (extractMessageContent b) = "" ∧ extractIntermediateActions b ≠ [] ∧
              contextInfo (bubbleCtx ctx b) b = [] ∧ extractThinkingContent b = "" then
            (match lastRole with
              | some r => if r ≠ getMessageRole b then ["", "---", ""] else []
              | none => [])
              ++ ["**[Actions]**"]
              ++ (extractIntermediateActions b ++ (collectActionRun ctx rest).1).map
                  (fun a => "- " ++ a)
              ++ [""]
              ++ renderLoopF ctx fuel (collectActionRun ctx rest).2 (some "assistant")
          else
            (match lastRole with
              | some r => if r ≠ getMessageRole b then ["", "---", ""] else []
              | none => [])
              ++ (if extractThinkingContent b ≠ "" then
                    ["**[Thinking]** " ++ extractThinkingContent b, ""]
                  else [])
              ++ (if pyStrip (extractMessageContent b) ≠ "" then
                    if getMessageRole b = "user" then
                      ["**[User]** " ++ extractMessageContent b]
                    else if getMessageRole b = "assistant" then
                      ["**[Agent]** " ++ extractMessageContent b]
                    else ["**[" ++ pyTitle (getMessageRole b) ++ "]** " ++ extractMessageContent b]
                  else [])
              ++ (if contextInfo (bubbleCtx ctx b) b ≠ [] then
                    (if pyStrip (extractMessageContent b) ≠ "" then [""] else [])
                      ++ contextInfo (bubbleCtx ctx b) b
                  else [])
              ++ (if extractIntermediateActions b ≠ [] ∧ pyStrip (extractMessageContent b) ≠ "" then
                    ["", "**[Actions]**"] ++ (extractIntermediateActions b).map (fun a => "- " ++ a)
                  else [])
              ++ [""]
              ++ renderLoopF ctx fuel rest (some (getMessageRole b)) := rfl

theorem renderLoopF_irrel (ctx : String → Option ContextData) :
    ∀ f g (bs : List Bubble) (lr : Option String), bs.length ≤ f → bs.length ≤ g →
      renderLoopF ctx f bs lr = renderLoopF ctx g bs lr := by
  intro f
  induction f with
  | zero =>
    intro g bs lr hf hg
    have hbs : bs = [] := List.eq_nil_of_length_eq_zero (Nat.le_zero.mp hf)
    subst hbs
    rw [renderLoopF_nil, renderLoopF_nil]
  | succ f ih =>
    intro g bs lr hf hg
    cases bs with
    | nil => rw [renderLoopF_nil, renderLoopF_nil]
    | cons b rest =>
      cases g with
      | zero => simp at hg
      | succ g0 =>
        have hf' : rest.length ≤ f := by simpa using hf
        have hg' : rest.length ≤ g0 := by simpa using hg
        rw [renderLoopF_cons, renderLoopF_cons]
        by_cases hskip : pyStrip (extractMessageContent b) = "" ∧
            extractIntermediateActions b = [] ∧
            contextInfo (bubbleCtx ctx b) b = [] ∧ extractThinkingContent b = ""
        · rw [if_pos hskip, if_pos hskip, ih g0 rest lr hf' hg']
        · rw [if_neg hskip, if_neg hskip]
          by_cases hact : pyStrip (extractMessageContent b) = "" ∧
              extractIntermediateActions b ≠ [] ∧
              contextInfo (bubbleCtx ctx b) b = [] ∧ extractThinkingContent b = ""
          · rw [if_pos hact, if_pos hact]
            have hc := collectActionRun_rest_le ctx rest
            rw [ih g0 _ _ (le_trans hc hf') (le_trans hc hg')]
          · rw [if_neg hact, if_neg hact, ih g0 rest _ hf' hg']

theorem collectActionRun_spec (ctx : String → Option ContextData) :
    ∀ (run post : List Bubble),
      (∀ b ∈ run, lookaheadActionOnlyCond ctx b) →
      (∀ p, post.head? = some p → ¬ lookaheadActionOnlyCond ctx p) →
      collectActionRun ctx (run ++ post)
        = (joinMap extractIntermediateActions run, post) := by
  intro run
  induction run with
  | nil =>
    intro post hrun hpost
    cases post with
    | nil => rfl
    | cons p ps =>
      have hp := hpost p rfl
      unfold lookaheadActionOnlyCond at hp
      rw [List.nil_append, collectActionRun_cons, if_neg hp]
      simp [joinMap]
  | cons b run' ih =>
    intro post hrun hpost
    have hb := hrun b (List.mem_cons_self b run')
    unfold lookaheadActionOnlyCond at hb
    rw [List.cons_append, collectActionRun_cons, if_pos hb]
    rw [ih post (fun x hx => hrun x (List.mem_cons_of_mem b hx)) hpost]
    simp [joinMap]

/-- C6 (confirmed): when the loop reaches a maximal run of two or more
consecutive action-only bubbles (blank content, no context information, no
thinking, non-empty action lines; the bubble after the run fails the
look-ahead test), it emits exactly one `[Actions]` block whose lines are the
concatenation of the run's action lines in original order, then continues
after the run with the role state set to assistant. -/
theorem c6_action_run_merged (ctx : String → Option ContextData)
    (run post : List Bubble) (lastRole : Option String)
    (hlen : 2 ≤ run.length)
    (hrun : ∀ b ∈ run, actionOnlyCond ctx b)
    (hpost : ∀ p, post.head? = some p → ¬ lookaheadActionOnlyCond ctx p) :
    renderLoop ctx (run ++ post) lastRole
      = (match lastRole with
         | some r => if r ≠ getMessageRole (run.headD Bubble.empty) then ["", "---", ""] else []
         | none => [])
        ++ ["**[Actions]**"]
        ++ (joinMap extractIntermediateActions run).map (fun a => "- " ++ a)
        ++ [""]
        ++ renderLoop ctx post (some "assistant") := by
  cases run with
  | nil => simp at hlen
  | cons b run' =>
    have hb := hrun b (List.mem_cons_self _ _)
    unfold actionOnlyCond at hb
    unfold renderLoop
    rw [List.cons_append]
    rw [show (b :: (run' ++ post)).length = (run' ++ post).length + 1 from by simp]
    rw [renderLoopF_cons]
    rw [if_neg (fun hskip => hb.2.1 hskip.2.1)]
    rw [if_pos hb]
    rw [collectActionRun_spec ctx run' post
      (fun x hx => lookahead_of_actionOnly ctx x (hrun x (List.mem_cons_of_mem b hx))) hpost]
    rw [renderLoopF_irrel ctx ((run' ++ post).length) post.length post (some "assistant")
      (by simp) (le_refl _)]
    simp [joinMap]

/-- Witness for C6: two consecutive argument-less `read_file` bubbles merge
into one block. -/
theorem c6_action_run_merged_witness :
    (2 ≤ ([cexReadBubble, cexReadBubble] : List Bubble).length ∧
      ∀ b ∈ ([cexReadBubble, cexReadBubble] : List Bubble), actionOnlyCond noCtxLookup b) ∧
    renderLoop noCtxLookup ([cexReadBubble, cexReadBubble] ++ []) none
      = (match (none : Option String) with
         | some r =>
           if r ≠ getMessageRole (([cexReadBubble, cexReadBubble] : List Bubble).headD Bubble.empty)
           then ["", "---", ""] else []
         | none => [])
        ++ ["**[Actions]**"]
        ++ (joinMap extractIntermediateActions [cexReadBubble, cexReadBubble]).map
            (fun a => "- " ++ a)
        ++ [""]
        ++ renderLoop noCtxLookup [] (some "assistant") := by
  have hrun : ∀ b ∈ ([cexReadBubble, cexReadBubble] : List Bubble),
      actionOnlyCond noCtxLookup b := by
    intro b hb
    have hbe : b = cexReadBubble := by
      rcases List.mem_cons.mp hb with h | hb2
      · exact h
      · rcases List.mem_cons.mp hb2 with h | hb3
        · exact h
        · exact absurd hb3 (List.not_mem_nil b)
    subst hbe
    exact ⟨rfl, by decide, rfl, rfl⟩
  exact ⟨⟨by decide, hrun⟩,
    c6_action_run_merged noCtxLookup [cexReadBubble, cexReadBubble] [] none
      (by decide) hrun (fun p hp => by simp at hp)⟩

/-! ## No emitted content line is a bare separator (`---`) -/

theorem ne_dashes_of_two (c1 c2 : Char) (cs : List Char)
    (h : ¬(c1 = '-' ∧ c2 = '-')) : String.mk (c1 :: c2 :: cs) ≠ "---" := by
  intro he
  have hd := congrArg String.data he
  rw [show ("---" : String).data = ['-', '-', '-'] from rfl] at hd
  have hd2 : c1 :: c2 :: cs = ['-', '-', '-'] := hd
  simp at hd2
  exact h ⟨hd2.1, hd2.2.1⟩

theorem lit_append_ne_dashes (p x : String) (h2 : 2 ≤ p.data.length)
    (hp : ¬(p.data.take 2 = ['-', '-'])) : p ++ x ≠ "---" := by
  cases p with
  | mk l =>
    cases x with
    | mk m =>
      cases l with
      | nil => simp at h2
      | cons c1 l1 =>
        cases l1 with
        | nil => simp at h2
        | cons c2 rest =>
          have hform : (String.mk (c1 :: c2 :: rest) ++ String.mk m)
              = String.mk (c1 :: c2 :: (rest ++ m)) := rfl
          rw [hform]
          apply ne_dashes_of_two
          intro hc
          exact hp (by simp [hc.1, hc.2])

/-- Every element of the list differs from the separator line. -/
def dashFree (ls : List String) : Prop := ∀ s ∈ ls, s ≠ "---"

theorem dashFree_nil : dashFree [] := by intro s h; simp at h

theorem dashFree_append {a b : List String} (ha : dashFree a) (hb : dashFree b) :
    dashFree (a ++ b) := by
  intro s hs
  rcases List.mem_append.mp hs with h | h
  · exact ha s h
  · exact hb s h

theorem dashFree_cons {x : String} {l : List String} (hx : x ≠ "---")
    (hl : dashFree l) : dashFree (x :: l) := by
  intro s hs
  rcases List.mem_cons.mp hs with rfl | h
  · exact hx
  · exact hl s h

theorem dashFree_joinMap {α : Type} {f : α → List String} {xs : List α}
    (h : ∀ x ∈ xs, dashFree (f x)) : dashFree (joinMap f xs) := by
  intro s hs
  have hm : ∃ x ∈ xs, s ∈ f x := by
    simp only [joinMap, List.mem_flatten, List.mem_map] at hs
    obtain ⟨l, ⟨x, hx, hfx⟩, hsl⟩ := hs
    exact ⟨x, hx, hfx ▸ hsl⟩
  obtain ⟨x, hx, hsf⟩ := hm
  exact h x hx s hsf

theorem dashFree_map_dash (xs : List String) :
    dashFree (xs.map (fun a => "- " ++ a)) := by
  intro s hs
  obtain ⟨a, _, rfl⟩ := List.mem_map.mp hs
  exact lit_append_ne_dashes "- " a (by decide) (by decide)

theorem count_dash_of_dashFree {l : List String} (h : dashFree l) :
    l.count "---" = 0 := by
  rw [List.count_eq_zero]
  intro hmem
  exact h "---" hmem rfl

theorem dashFree_single_lit (p x : String) (h2 : 2 ≤ p.data.length)
    (hp : ¬(p.data.take 2 = ['-', '-'])) : dashFree [p ++ x] :=
  dashFree_cons (lit_append_ne_dashes p x h2 hp) dashFree_nil

theorem dashFree_filesCtxBlock (files : List JVal) : dashFree (filesCtxBlock files) := by
  unfold filesCtxBlock
  split_ifs
  · exact dashFree_nil
  apply dashFree_cons
  · simp only [String.append_assoc]
    exact lit_append_ne_dashes _ _ (by decide) (by decide)
  apply dashFree_append _ (dashFree_cons (by decide) dashFree_nil)
  apply dashFree_joinMap
  intro f _
  cases f with
  | jobj fs =>
    dsimp only
    cases getJ fs "path" with
    | some p =>
      dsimp only
      simp only [String.append_assoc]
      exact dashFree_single_lit _ _ (by decide) (by decide)
    | none => exact dashFree_nil
  | jnull => exact dashFree_nil
  | jbool b => exact dashFree_nil
  | jnum n => exact dashFree_nil
  | jstr s => exact dashFree_nil
  | jarr xs => exact dashFree_nil

theorem dashFree_todoCtxLine (td : JVal) : dashFree (todoCtxLine td) := by
  cases td with
  | jobj tf =>
    simp only [todoCtxLine, String.append_assoc]
    exact dashFree_single_lit _ _ (by decide) (by decide)
  | jstr s => exact dashFree_single_lit "- " s (by decide) (by decide)
  | jnull => exact dashFree_single_lit "- " _ (by decide) (by decide)
  | jbool b => exact dashFree_single_lit "- " _ (by decide) (by decide)
  | jnum n => exact dashFree_single_lit "- " _ (by decide) (by decide)
  | jarr xs => exact dashFree_single_lit "- " _ (by decide) (by decide)

theorem dashFree_todosCtxBlock (todos : List JVal) : dashFree (todosCtxBlock todos) := by
  unfold todosCtxBlock
  split_ifs
  · exact dashFree_nil
  apply dashFree_cons
  · simp only [String.append_assoc]
    exact lit_append_ne_dashes _ _ (by decide) (by decide)
  exact dashFree_append
    (dashFree_joinMap fun td _ => dashFree_todoCtxLine td)
    (dashFree_cons (by decide) dashFree_nil)

theorem dashFree_terminalCtxBlock (ts : List JVal) : dashFree (terminalCtxBlock ts) := by
  unfold terminalCtxBlock
  split_ifs
  · exact dashFree_nil
  apply dashFree_cons
  · simp only [String.append_assoc]
    exact lit_append_ne_dashes _ _ (by decide) (by decide)
  apply dashFree_append _ (dashFree_cons (by decide) dashFree_nil)
  intro s hs
  obtain ⟨t, _, rfl⟩ := List.mem_map.mp hs
  exact lit_append_ne_dashes "- " _ (by decide) (by decide)

theorem dashFree_ruleCtxLine (r : JVal) : dashFree (ruleCtxLine r) := by
  cases r with
  | jobj rf =>
    simp only [ruleCtxLine]
    split_ifs
    · exact dashFree_single_lit "- " _ (by decide) (by decide)
    · exact dashFree_nil
  | jstr s => exact dashFree_single_lit "- " s (by decide) (by decide)
  | jnull => exact dashFree_nil
  | jbool b => exact dashFree_nil
  | jnum n => exact dashFree_nil
  | jarr xs => exact dashFree_nil

theorem dashFree_rulesCtxBlock (rs : List JVal) : dashFree (rulesCtxBlock rs) := by
  unfold rulesCtxBlock
  split_ifs
  · exact dashFree_nil
  apply dashFree_cons
  · simp only [String.append_assoc]
    exact lit_append_ne_dashes _ _ (by decide) (by decide)
  exact dashFree_append
    (dashFree_joinMap fun r _ => dashFree_ruleCtxLine r)
    (dashFree_cons (by decide) dashFree_nil)

theorem dashFree_ctxDataInfo (c : Option ContextData) : dashFree (ctxDataInfo c) := by
  cases c with
  | none => exact dashFree_nil
  | some cd =>
    exact dashFree_append
      (dashFree_append
        (dashFree_append (dashFree_filesCtxBlock _) (dashFree_todosCtxBlock _))
        (dashFree_terminalCtxBlock _))
      (dashFree_rulesCtxBlock _)

theorem dashFree_gitDiffLines (d : JVal) : dashFree (gitDiffLines d) := by
  cases d with
  | jobj df =>
    dsimp only [gitDiffLines]
    apply dashFree_cons (lit_append_ne_dashes "- " _ (by decide) (by decide))
    split_ifs
    · apply dashFree_append _ (dashFree_cons (by decide) dashFree_nil)
      apply dashFree_cons (by decide)
      intro s hs
      obtain ⟨l, _, rfl⟩ := List.mem_map.mp hs
      exact lit_append_ne_dashes "  " _ (by decide) (by decide)
    · exact dashFree_nil
  | jnull => exact dashFree_nil
  | jbool b => exact dashFree_nil
  | jnum n => exact dashFree_nil
  | jstr s => exact dashFree_nil
  | jarr xs => exact dashFree_nil

theorem dashFree_gitDiffsBlock (b : Bubble) : dashFree (gitDiffsBlock b) := by
  unfold gitDiffsBlock
  split_ifs
  · exact dashFree_nil
  apply dashFree_cons
  · simp only [String.append_assoc]
    exact lit_append_ne_dashes _ _ (by decide) (by decide)
  exact dashFree_append
    (dashFree_joinMap fun d _ => dashFree_gitDiffLines d)
    (dashFree_cons (by decide) dashFree_nil)

theorem dashFree_commitsBlock (b : Bubble) : dashFree (commitsBlock b) := by
  unfold commitsBlock
  split_ifs
  · exact dashFree_nil
  apply dashFree_cons
  · simp only [String.append_assoc]
    exact lit_append_ne_dashes _ _ (by decide) (by decide)
  apply dashFree_append _ (dashFree_cons (by decide) dashFree_nil)
  apply dashFree_joinMap
  intro c _
  cases c with
  | jobj cf =>
    dsimp only
    simp only [String.append_assoc]
    exact dashFree_single_lit _ _ (by decide) (by decide)
  | jnull => exact dashFree_nil
  | jbool b => exact dashFree_nil
  | jnum n => exact dashFree_nil
  | jstr s => exact dashFree_nil
  | jarr xs => exact dashFree_nil

theorem dashFree_pullRequestsBlock (b : Bubble) : dashFree (pullRequestsBlock b) := by
  unfold pullRequestsBlock
  split_ifs
  · exact dashFree_nil
  apply dashFree_cons
  · simp only [String.append_assoc]
    exact lit_append_ne_dashes _ _ (by decide) (by decide)
  apply dashFree_append _ (dashFree_cons (by decide) dashFree_nil)
  apply dashFree_joinMap
  intro pr _
  cases pr with
  | jobj pf =>
    dsimp only
    simp only [String.append_assoc]
    exact dashFree_single_lit _ _ (by decide) (by decide)
  | jnull => exact dashFree_nil
  | jbool b => exact dashFree_nil
  | jnum n => exact dashFree_nil
  | jstr s => exact dashFree_nil
  | jarr xs => exact dashFree_nil

theorem dashFree_lintLine (l : JVal) : dashFree (lintLine l) := by
  cases l with
  | jobj lf =>
    dsimp only [lintLine]
    simp only [String.append_assoc]
    exact dashFree_single_lit _ _ (by decide) (by decide)
  | jnull => exact dashFree_nil
  | jbool b => exact dashFree_nil
  | jnum n => exact dashFree_nil
  | jstr s => exact dashFree_nil
  | jarr xs => exact dashFree_nil

theorem dashFree_lintsBlock (b : Bubble) : dashFree (lintsBlock b) := by
  unfold lintsBlock
  dsimp only
  split_ifs
  · exact dashFree_nil
  apply dashFree_cons
  · simp only [String.append_assoc]
    exact lit_append_ne_dashes _ _ (by decide) (by decide)
  exact dashFree_append
    (dashFree_joinMap fun x _ => dashFree_lintLine x)
    (dashFree_cons (by decide) dashFree_nil)

theorem dashFree_humanChangesBlock (b : Bubble) : dashFree (humanChangesBlock b) := by
  unfold humanChangesBlock
  split_ifs
  · exact dashFree_nil
  apply dashFree_cons
  · simp only [String.append_assoc]
    exact lit_append_ne_dashes _ _ (by decide) (by decide)
  apply dashFree_append _ (dashFree_cons (by decide) dashFree_nil)
  apply dashFree_joinMap
  intro ch _
  cases ch with
  | jobj cf =>
    dsimp only
    simp only [String.append_assoc]
    exact dashFree_single_lit _ _ (by decide) (by decide)
  | jnull => exact dashFree_nil
  | jbool b => exact dashFree_nil
  | jnum n => exact dashFree_nil
  | jstr s => exact dashFree_nil
  | jarr xs => exact dashFree_nil

theorem dashFree_folderLine (f : JVal) : dashFree (folderLine f) := by
  cases f with
  | jobj ff => exact dashFree_single_lit "- " _ (by decide) (by decide)
  | jstr s => exact dashFree_single_lit "- " s (by decide) (by decide)
  | jnull => exact dashFree_nil
  | jbool b => exact dashFree_nil
  | jnum n => exact dashFree_nil
  | jarr xs => exact dashFree_nil

theorem dashFree_foldersBlockAux (af : List JVal) :
    dashFree (if af.isEmpty then [] else
      ("**Attached Folders (" ++ toString af.length ++ "):**") ::
        joinMap folderLine af ++ [""]) := by
  split_ifs
  · exact dashFree_nil
  apply dashFree_cons
  · simp only [String.append_assoc]
    exact lit_append_ne_dashes _ _ (by decide) (by decide)
  exact dashFree_append
    (dashFree_joinMap fun x _ => dashFree_folderLine x)
    (dashFree_cons (by decide) dashFree_nil)

theorem dashFree_attachedFoldersBlock (b : Bubble) : dashFree (attachedFoldersBlock b) := by
  unfold attachedFoldersBlock
  exact dashFree_foldersBlockAux _

theorem dashFree_recentFileLine (f : JVal) : dashFree (recentFileLine f) := by
  cases f with
  | jobj ff =>
    dsimp only [recentFileLine]
    split_ifs
    · exact dashFree_single_lit "- " _ (by decide) (by decide)
    · exact dashFree_nil
  | jstr s => exact dashFree_single_lit "- " s (by decide) (by decide)
  | jnull => exact dashFree_nil
  | jbool b => exact dashFree_nil
  | jnum n => exact dashFree_nil
  | jarr xs => exact dashFree_nil

theorem dashFree_recentlyViewedBlock (b : Bubble) : dashFree (recentlyViewedBlock b) := by
  unfold recentlyViewedBlock
  split_ifs
  · exact dashFree_nil
  apply dashFree_cons
  · simp only [String.append_assoc]
    exact lit_append_ne_dashes _ _ (by decide) (by decide)
  exact dashFree_append
    (dashFree_joinMap fun x _ => dashFree_recentFileLine x)
    (dashFree_cons (by decide) dashFree_nil)

theorem dashFree_imageLine (i : JVal) : dashFree (imageLine i) := by
  cases i with
  | jobj imf =>
    dsimp only [imageLine]
    simp only [String.append_assoc]
    exact dashFree_single_lit _ _ (by decide) (by decide)
  | jstr s => exact dashFree_single_lit "- " s (by decide) (by decide)
  | jnull => exact dashFree_nil
  | jbool b => exact dashFree_nil
  | jnum n => exact dashFree_nil
  | jarr xs => exact dashFree_nil

theorem dashFree_imagesBlock (b : Bubble) : dashFree (imagesBlock b) := by
  unfold imagesBlock
  split_ifs
  · exact dashFree_nil
  apply dashFree_cons
  · simp only [String.append_assoc]
    exact lit_append_ne_dashes _ _ (by decide) (by decide)
  exact dashFree_append
    (dashFree_joinMap fun x _ => dashFree_imageLine x)
    (dashFree_cons (by decide) dashFree_nil)

theorem dashFree_agenticBlock (b : Bubble) : dashFree (agenticBlock b) := by
  unfold agenticBlock
  split_ifs
  · exact dashFree_cons (by decide) (dashFree_cons (by decide) dashFree_nil)
  · exact dashFree_nil

theorem dashFree_contextInfo (c : Option ContextData) (b : Bubble) :
    dashFree (contextInfo c b) := by
  unfold contextInfo
  exact dashFree_append (dashFree_append (dashFree_append (dashFree_append
    (dashFree_append (dashFree_append (dashFree_append (dashFree_append
      (dashFree_append (dashFree_ctxDataInfo c) (dashFree_gitDiffsBlock b))
      (dashFree_commitsBlock b)) (dashFree_pullRequestsBlock b))
      (dashFree_lintsBlock b)) (dashFree_humanChangesBlock b))
      (dashFree_attachedFoldersBlock b)) (dashFree_recentlyViewedBlock b))
      (dashFree_imagesBlock b)) (dashFree_agenticBlock b)

theorem count_dash_map_dash (xs : List String) :
    (xs.map (fun a => "- " ++ a)).count "---" = 0 :=
  count_dash_of_dashFree (dashFree_map_dash xs)

theorem count_dash_thinkLines (b : Bubble) :
    ((if extractThinkingContent b ≠ "" then
        ["**[Thinking]** " ++ extractThinkingContent b, ""]
      else []) : List String).count "---" = 0 := by
  apply count_dash_of_dashFree
  split_ifs
  · exact dashFree_cons (lit_append_ne_dashes _ _ (by decide) (by decide))
      (dashFree_cons (by decide) dashFree_nil)
  · exact dashFree_nil

theorem count_dash_contentLines (b : Bubble) :
    ((if pyStrip (extractMessageContent b) ≠ "" then
        if getMessageRole b = "user" then ["**[User]** " ++ extractMessageContent b]
        else if getMessageRole b = "assistant" then
          ["**[Agent]** " ++ extractMessageContent b]
        else ["**[" ++ pyTitle (getMessageRole b) ++ "]** " ++ extractMessageContent b]
      else []) : List String).count "---" = 0 := by
  apply count_dash_of_dashFree
  split_ifs
  all_goals
    first
    | exact dashFree_nil
    | exact dashFree_single_lit _ _ (by decide) (by decide)
    | (simp only [String.append_assoc]
       exact dashFree_single_lit _ _ (by decide) (by decide))

theorem count_dash_ctxLines (ctx : String → Option ContextData) (b : Bubble) :
    ((if contextInfo (bubbleCtx ctx b) b ≠ [] then
        (if pyStrip (extractMessageContent b) ≠ "" then [""] else [])
          ++ contextInfo (bubbleCtx ctx b) b
      else []) : List String).count "---" = 0 := by
  apply count_dash_of_dashFree
  split_ifs
  · exact dashFree_append (dashFree_cons (by decide) dashFree_nil)
      (dashFree_contextInfo _ _)
  · exact dashFree_append dashFree_nil (dashFree_contextInfo _ _)
  · exact dashFree_nil

theorem count_dash_actLines (b : Bubble) :
    ((if extractIntermediateActions b ≠ [] ∧ pyStrip (extractMessageContent b) ≠ "" then
        ["", "**[Actions]**"] ++ (extractIntermediateActions b).map (fun a => "- " ++ a)
      else []) : List String).count "---" = 0 := by
  apply count_dash_of_dashFree
  split_ifs
  · exact dashFree_append
      (dashFree_cons (by decide) (dashFree_cons (by decide) dashFree_nil))
      (dashFree_map_dash _)
  · exact dashFree_nil

theorem count_dash_blank : (([""] : List String)).count "---" = 0 := by decide

theorem count_dash_actions_header :
    ((["**[Actions]**"] : List String)).count "---" = 0 := by decide

/-- A run of user-role bubbles with non-blank content contributes no
separator when the incoming role state is `none` or already `user`: the
loop's count of separator lines equals the count over the remaining bubbles,
with the role state advanced to `user` if the run is non-empty. -/
theorem count_dash_user_run (ctx : String → Option ContextData)
    (rest : List Bubble) :
    ∀ (us : List Bubble) (lr : Option String),
      (∀ b ∈ us, getMessageRole b = "user" ∧ pyStrip (extractMessageContent b) ≠ "") →
      lr = none ∨ lr = some "user" →
      (renderLoop ctx (us ++ rest) lr).count "---"
        = (renderLoop ctx rest (if us.isEmpty then lr else some "user")).count "---" := by
  intro us
  induction us with
  | nil => intro lr _ _; simp
  | cons b us' ih =>
    intro lr hus hlr
    obtain ⟨hrole, hcontent⟩ := hus b (List.mem_cons_self b us')
    have hskip : ¬(pyStrip (extractMessageContent b) = "" ∧
        extractIntermediateActions b = [] ∧
        contextInfo (bubbleCtx ctx b) b = [] ∧ extractThinkingContent b = "") :=
      fun h => hcontent h.1
    have hact : ¬(pyStrip (extractMessageContent b) = "" ∧
        extractIntermediateActions b ≠ [] ∧
        contextInfo (bubbleCtx ctx b) b = [] ∧ extractThinkingContent b = "") :=
      fun h => hcontent h.1
    show (renderLoopF ctx ((us' ++ rest).length + 1) (b :: (us' ++ rest)) lr).count "---" = _
    rw [renderLoopF_cons, if_neg hskip, if_neg hact]
    rcases hlr with rfl | rfl
    all_goals dsimp only
    · simp only [List.count_append, List.count_nil, count_dash_thinkLines,
        count_dash_contentLines, count_dash_ctxLines, count_dash_actLines,
        count_dash_blank, Nat.zero_add, Nat.add_zero]
      rw [hrole]
      have := ih (some "user") (fun x hx => hus x (List.mem_cons_of_mem b hx))
        (Or.inr rfl)
      simp only [ite_self] at this
      have heq : renderLoopF ctx (us' ++ rest).length (us' ++ rest) (some "user")
          = renderLoop ctx (us' ++ rest) (some "user") := rfl
      rw [heq, this]
      simp [List.isEmpty_cons]
    · rw [if_neg (by rw [hrole]; simp)]
      simp only [List.count_append, List.count_nil, count_dash_thinkLines,
        count_dash_contentLines, count_dash_ctxLines, count_dash_actLines,
        count_dash_blank, Nat.zero_add, Nat.add_zero]
      rw [hrole]
      have := ih (some "user") (fun x hx => hus x (List.mem_cons_of_mem b hx))
        (Or.inr rfl)
      simp only [ite_self] at this
      have heq : renderLoopF ctx (us' ++ rest).length (us' ++ rest) (some "user")
          = renderLoop ctx (us' ++ rest) (some "user") := rfl
      rw [heq, this]
      simp [List.isEmpty_cons]

theorem collectActionRun_rest_subset (ctx : String → Option ContextData) :
    ∀ (bs : List Bubble) (x : Bubble), x ∈ (collectActionRun ctx bs).2 → x ∈ bs := by
  intro bs
  induction bs with
  | nil => intro x hx; simp [collectActionRun] at hx
  | cons b rest ih =>
    intro x hx
    rw [collectActionRun_cons] at hx
    split_ifs at hx
    · exact List.mem_cons_of_mem b (ih x hx)
    · exact hx

/-- A run of assistant-role bubbles entered with role state `assistant`
never emits a separator: skipped bubbles emit nothing, action-only bubbles
and content bubbles emit blocks whose lines are never `---`, and the role
state stays `assistant` throughout. -/
theorem count_dash_assistant_run (ctx : String → Option ContextData) :
    ∀ (n : Nat) (bs : List Bubble), bs.length ≤ n →
      (∀ b ∈ bs, getMessageRole b = "assistant") →
      (renderLoop ctx bs (some "assistant")).count "---" = 0 := by
  intro n
  induction n with
  | zero =>
    intro bs hlen _
    have hbs : bs = [] := List.eq_nil_of_length_eq_zero (Nat.le_zero.mp hlen)
    subst hbs
    rfl
  | succ n ih =>
    intro bs hlen h
    cases bs with
    | nil => rfl
    | cons b rest =>
      have hb := h b (List.mem_cons_self b rest)
      have hrest : ∀ x ∈ rest, getMessageRole x = "assistant" :=
        fun x hx => h x (List.mem_cons_of_mem b hx)
      have hlen' : rest.length ≤ n := Nat.le_of_succ_le_succ (by simpa using hlen)
      show (renderLoopF ctx (rest.length + 1) (b :: rest) (some "assistant")).count "---" = 0
      rw [renderLoopF_cons]
      by_cases hskip : pyStrip (extractMessageContent b) = "" ∧
          extractIntermediateActions b = [] ∧
          contextInfo (bubbleCtx ctx b) b = [] ∧ extractThinkingContent b = ""
      · rw [if_pos hskip]
        exact ih rest hlen' hrest
      · rw [if_neg hskip]
        by_cases hact : pyStrip (extractMessageContent b) = "" ∧
            extractIntermediateActions b ≠ [] ∧
            contextInfo (bubbleCtx ctx b) b = [] ∧ extractThinkingContent b = ""
        · rw [if_pos hact]
          dsimp only
          rw [if_neg (by rw [hb]; simp)]
          simp only [List.count_append, List.count_nil, count_dash_blank,
            count_dash_actions_header, count_dash_map_dash, Nat.zero_add,
            Nat.add_zero]
          have hle := collectActionRun_rest_le ctx rest
          rw [renderLoopF_irrel ctx rest.length ((collectActionRun ctx rest).2.length)
            _ _ hle (le_refl _)]
          exact ih _ (le_trans hle hlen')
            (fun x hx => hrest x (collectActionRun_rest_subset ctx rest x hx))
        · rw [if_neg hact]
          dsimp only
          rw [if_neg (by rw [hb]; simp)]
          simp only [List.count_append, List.count_nil, count_dash_thinkLines,
            count_dash_contentLines, count_dash_ctxLines, count_dash_actLines,
            count_dash_blank, Nat.zero_add, Nat.add_zero]
          rw [hb]
          exact ih rest hlen' hrest

theorem count_dash_sep : ((["", "---", ""] : List String)).count "---" = 1 := by decide

/-- The renderer's skip condition (source lines 925-927): blank content, no
action lines, no context information, no thinking text. -/
def semanticallyEmpty (ctx : String → Option ContextData) (b : Bubble) : Prop :=
  pyStrip (extractMessageContent b) = "" ∧ extractIntermediateActions b = [] ∧
    contextInfo (bubbleCtx ctx b) b = [] ∧ extractThinkingContent b = ""

/-- A user-role (`type` tag 1) bubble saying `hi`. -/
def c7userSaysHi : Bubble :=
  { Bubble.empty with type := some (jnum 1), content := some (jstr "hi") }

/-- A user-role (`type` tag 1) action-only bubble: blank content, one tool
invocation. -/
def c7userActionOnly : Bubble :=
  { Bubble.empty with type := some (jnum 1), toolFormerData := some cexReadTool }

/-- A user-role (`type` tag 1) bubble saying `more`. -/
def c7userSaysMore : Bubble :=
  { Bubble.empty with type := some (jnum 1), content := some (jstr "more") }

/-- C7 (counterexample): the separator is keyed to the mutable `last_role`
state, not to the previous emitted bubble's resolved role.  An action-only
bubble sets `last_role` to `assistant` regardless of its own resolved role,
so in a sequence of three emitted bubbles that all resolve to `user` a
separator appears between the second and the third: a separator between two
consecutive emitted bubbles of the same resolved role, refuting the claim's
second half. -/
theorem c7_counterexample :
    getMessageRole c7userSaysHi = "user" ∧
    getMessageRole c7userActionOnly = "user" ∧
    getMessageRole c7userSaysMore = "user" ∧
    renderLoop noCtxLookup [c7userSaysHi, c7userActionOnly, c7userSaysMore] none
      = ["**[User]** hi", "", "**[Actions]**",
         "- 📖 Read file: (args unavailable)", "",
         "", "---", "", "**[User]** more", ""] ∧
    (renderLoop noCtxLookup [c7userSaysHi, c7userActionOnly, c7userSaysMore]
        none).count "---" = 1 :=
  ⟨rfl, rfl, rfl, by decide, by decide⟩

/-- C7 (amended): a run of user-role content bubbles followed by a run of
assistant-role bubbles whose first bubble is emitted renders with exactly
one separator line, produced at the user-to-assistant transition. -/
theorem c7_separator (ctx : String → Option ContextData)
    (us bs : List Bubble) (hus : us ≠ []) (hbs : bs ≠ [])
    (huser : ∀ b ∈ us, getMessageRole b = "user" ∧
      pyStrip (extractMessageContent b) ≠ "")
    (hassist : ∀ b ∈ bs, getMessageRole b = "assistant")
    (hhead : ∀ p, bs.head? = some p → ¬ semanticallyEmpty ctx p) :
    (renderLoop ctx (us ++ bs) none).count "---" = 1 := by
  rw [count_dash_user_run ctx bs us none huser (Or.inl rfl)]
  rcases us with _ | ⟨u, us'⟩
  · exact absurd rfl hus
  rw [if_neg (by simp)]
  rcases bs with _ | ⟨a, rest⟩
  · exact absurd rfl hbs
  have ha := hhead a rfl
  unfold semanticallyEmpty at ha
  have haRole := hassist a (List.mem_cons_self a rest)
  show (renderLoopF ctx (rest.length + 1) (a :: rest) (some "user")).count "---" = 1
  rw [renderLoopF_cons, if_neg ha]
  by_cases hact : pyStrip (extractMessageContent a) = "" ∧
      extractIntermediateActions a ≠ [] ∧
      contextInfo (bubbleCtx ctx a) a = [] ∧ extractThinkingContent a = ""
  · rw [if_pos hact]
    dsimp only
    rw [if_pos (show "user" ≠ getMessageRole a by rw [haRole]; decide)]
    simp only [List.count_append, count_dash_sep, count_dash_blank,
      count_dash_actions_header, count_dash_map_dash, Nat.zero_add, Nat.add_zero]
    have hle := collectActionRun_rest_le ctx rest
    rw [renderLoopF_irrel ctx rest.length ((collectActionRun ctx rest).2.length)
      _ _ hle (le_refl _)]
    have heq : renderLoopF ctx (collectActionRun ctx rest).2.length
        (collectActionRun ctx rest).2 (some "assistant")
        = renderLoop ctx (collectActionRun ctx rest).2 (some "assistant") := rfl
    rw [heq, count_dash_assistant_run ctx ((collectActionRun ctx rest).2.length) _
      (le_refl _)
      (fun x hx => hassist x
        (List.mem_cons_of_mem a (collectActionRun_rest_subset ctx rest x hx)))]
  · rw [if_neg hact]
    dsimp only
    rw [if_pos (show "user" ≠ getMessageRole a by rw [haRole]; decide)]
    simp only [List.count_append, count_dash_sep, count_dash_thinkLines,
      count_dash_contentLines, count_dash_ctxLines, count_dash_actLines,
      count_dash_blank, Nat.zero_add, Nat.add_zero]
    rw [haRole]
    have heq : renderLoopF ctx rest.length rest (some "assistant")
        = renderLoop ctx rest (some "assistant") := rfl
    rw [heq, count_dash_assistant_run ctx rest.length rest (le_refl _)
      (fun x hx => hassist x (List.mem_cons_of_mem a hx))]

/-- An assistant-role (`type` tag 2) bubble saying `ok`. -/
def c7assistSaysOk : Bubble :=
  { Bubble.empty with type := some (jnum 2), content := some (jstr "ok") }

theorem c7_separator_witness :
    (renderLoop noCtxLookup [c7userSaysHi, c7assistSaysOk] none).count "---" = 1 :=
  c7_separator noCtxLookup [c7userSaysHi] [c7assistSaysOk]
    (List.cons_ne_nil _ _) (List.cons_ne_nil _ _)
    (fun b hb => by
      simp at hb
      subst hb
      exact ⟨rfl, by decide⟩)
    (fun b hb => by
      simp at hb
      subst hb
      rfl)
    (fun p hp => by
      simp at hp
      subst hp
      intro h
      exact absurd h.1 (by decide))

/-- A bubble with blank content, one tool invocation and a bubble-level git
diff: its context information is non-empty, so the main loop would not treat
it as action-only, but the look-ahead checks only the four
`messageRequestContext` field names and accepts it. -/
def c6gitDiffBubble : Bubble :=
  { Bubble.empty with toolFormerData := some cexReadTool,
                      gitDiffs := [jobj [("path", jstr "a.py")]] }

/-- C6 (counterexample): the look-ahead test (line 957) is weaker than the
main-loop action-only test (line 934): it ignores the bubble-level context
blocks.  A maximal run of two action-only bubbles followed by a bubble that
carries a git diff (hence is not action-only) still absorbs that bubble's
action line into the single `[Actions]` block — the block holds three lines,
not the run's two — and the absorbed bubble's context lines are dropped. -/
theorem c6_counterexample :
    actionOnlyCond noCtxLookup cexReadBubble ∧
    ¬ actionOnlyCond noCtxLookup c6gitDiffBubble ∧
    renderLoop noCtxLookup [cexReadBubble, cexReadBubble, c6gitDiffBubble] none
      = ["**[Actions]**", "- 📖 Read file: (args unavailable)",
         "- 📖 Read file: (args unavailable)",
         "- 📖 Read file: (args unavailable)", ""] :=
  ⟨⟨rfl, by decide, rfl, rfl⟩,
   fun h => absurd h.2.2.1 (by decide),
   by decide⟩
